import Mathlib

/-!
# PagesTextEdit: page geometry, viewport insets, scroll range and page decoration

A shallow embedding of `src/PagesTextEdit.cpp` (with `PagesTextEdit.h` and
`PageMetrics.h`), followed by the properties proved about it.

Conventions of the embedding.

* C++ `int` is `Int`.  Signed overflow is undefined behaviour in C++ and is
  outside the model: every statement is about runs in which the arithmetic of
  the source stays inside the range of `int`.
* `%` and `/` on `int` truncate toward zero: `Int.tmod` and `Int.tdiv`.
* The pixel page size and pixel margins kept by `PageMetrics` are whole numbers
  of device pixels (its data model: converted from millimetres and rounded to
  whole device pixels), so the `qreal` arithmetic the widget does on them is
  exact and is carried out in `Int`.  Where the source forms a `qreal` that need
  not be whole (the quotient for the first page number, the height of the laid
  out document) the value is a rational number and the conversion to `int` is
  `qrealToInt`.
* The scroll bars and the hosted document are collaborators.  They are plain
  records; the calls the source makes on them are recorded.  The results of the
  layout engine (page count, content height) are fields the widget only reads.
* `repaint()` asks the toolkit for a paint event; the setters count the request
  and `paintEvent` is the handler the toolkit then runs.
* Loops and the re-entrant scroll range update take a fuel argument and return
  `none` when it runs out.
-/

namespace PagesTextEdit

/-! ## Toolkit value types -/

/-- Conversion of a `qreal` to `int`: the fractional part is discarded
(truncation toward zero). -/
def qrealToInt (q : ℚ) : Int := Int.tdiv q.num (q.den : Int)

/-- Type QSizeF holding whole pixel values. -/
structure QSizeF where
  width : Int
  height : Int
deriving DecidableEq

/-- Type QMarginsF holding whole pixel values. -/
structure QMarginsF where
  left : Int
  top : Int
  right : Int
  bottom : Int
deriving DecidableEq

/-- The test `QMarginsF::isNull`: all four margins are zero. -/
def QMarginsF.isNull (m : QMarginsF) : Bool :=
  m.left == 0 && m.top == 0 && m.right == 0 && m.bottom == 0

/-- Type QMargins, the integer margins handed to `setViewportMargins`.  A default
constructed `QMargins` is all zero. -/
structure QMargins where
  left : Int
  top : Int
  right : Int
  bottom : Int
deriving DecidableEq

/-- Type QRectF / QRect as used for the margin bands: whole pixel values. -/
structure QRectF where
  x : Int
  y : Int
  width : Int
  height : Int
deriving DecidableEq

/-- A page size in millimetres (`QSizeF m_mmPageSize`). -/
structure QSizeMm where
  width : ℚ
  height : ℚ
deriving DecidableEq

/-- Page margins in millimetres (`QMarginsF m_mmPageMargins`).  The default
constructed value is all zero. -/
structure QMarginsMm where
  left : ℚ
  top : ℚ
  right : ℚ
  bottom : ℚ
deriving DecidableEq

/-- The enumeration `QPageSize::PageSizeId`, by its integer value. -/
abbrev PageSizeId := Nat

/-! ### Alignment flags (`Qt::Alignment`), by their integer values -/

/-- Flag `Qt::AlignLeft`. -/
def AlignLeft : Nat := 0x0001

/-- Flag `Qt::AlignRight`. -/
def AlignRight : Nat := 0x0002

/-- Flag `Qt::AlignHCenter`. -/
def AlignHCenter : Nat := 0x0004

/-- Flag `Qt::AlignTop`. -/
def AlignTop : Nat := 0x0020

/-- Flag `Qt::AlignBottom`. -/
def AlignBottom : Nat := 0x0040

/-- Flag `Qt::AlignVCenter`. -/
def AlignVCenter : Nat := 0x0080

/-- The test `QFlags::testFlag`: all bits of `flag` are set (and, for the zero
flag, the value is zero). -/
def testFlag (i flag : Nat) : Bool :=
  (i &&& flag) == flag && (flag != 0 || i == flag)

/-! ## PageMetrics -/

/-- The paint device and the paper table read by `PageMetrics`: the physical
resolution along each axis and the size in millimetres of every page format. -/
structure Device where
  physicalDpiX : Int
  physicalDpiY : Int
  pageSizeMm : PageSizeId → QSizeMm

/-- Class PageMetrics (`PageMetrics.h`). -/
structure PageMetrics where
  m_pageFormat : PageSizeId
  m_mmPageSize : QSizeMm
  m_mmPageMargins : QMarginsMm
  m_pxPageSize : QSizeF
  m_pxPageMargins : QMarginsF
deriving DecidableEq

/-- Modelled from the spec: `PageMetrics::mmToPx`, whose body is in
`PageMetrics.cpp`.  A length in millimetres is converted with the resolution of
the chosen axis (25.4 millimetres to the inch) and rounded to whole device
pixels (to the nearest, halves upward). -/
def PageMetrics.mmToPx (dev : Device) (_mm : ℚ) (_x : Bool) : Int :=
  let dpi : Int := if _x then dev.physicalDpiX else dev.physicalDpiY
  ⌊_mm / (254 / 10) * (dpi : ℚ) + 1 / 2⌋

/-- Modelled from the spec: `PageMetrics::update`, whose body is in
`PageMetrics.cpp`.  It replaces format and margins, takes the millimetre size
from the format and recomputes the four pixel fields, width, left and right
with the horizontal resolution, height, top and bottom with the vertical
one. -/
def PageMetrics.update (dev : Device) (_pm : PageMetrics) (_pageFormat : PageSizeId)
    (_mmPageMargins : QMarginsMm) : PageMetrics :=
  let mmPageSize := dev.pageSizeMm _pageFormat
  { m_pageFormat := _pageFormat
    m_mmPageSize := mmPageSize
    m_mmPageMargins := _mmPageMargins
    m_pxPageSize :=
      { width := PageMetrics.mmToPx dev mmPageSize.width true
        height := PageMetrics.mmToPx dev mmPageSize.height false }
    m_pxPageMargins :=
      { left := PageMetrics.mmToPx dev _mmPageMargins.left true
        top := PageMetrics.mmToPx dev _mmPageMargins.top false
        right := PageMetrics.mmToPx dev _mmPageMargins.right true
        bottom := PageMetrics.mmToPx dev _mmPageMargins.bottom false } }

/-- Accessor `PageMetrics::pxPageSize`. -/
def PageMetrics.pxPageSize (pm : PageMetrics) : QSizeF := pm.m_pxPageSize

/-- Accessor `PageMetrics::pxPageMargins`. -/
def PageMetrics.pxPageMargins (pm : PageMetrics) : QMarginsF := pm.m_pxPageMargins

/-- Accessor `PageMetrics::pageFormat`. -/
def PageMetrics.pageFormat (pm : PageMetrics) : PageSizeId := pm.m_pageFormat

/-! ## Collaborators -/

/-- A scroll bar: its range, value, visibility and size, and the values that
were handed to `setMaximum`. -/
structure QScrollBar where
  minimum : Int
  maximum : Int
  value : Int
  isVisible : Bool
  width : Int
  height : Int
  setMaximumCalls : List Int
deriving DecidableEq

/-- The call `QAbstractSlider::setMaximum` up to the point where `rangeChanged`
is emitted: the maximum is stored and the minimum is lowered when needed to keep
the range valid. -/
def QScrollBar.setMaximum (b : QScrollBar) (max : Int) : QScrollBar :=
  { b with
    minimum := min b.minimum max
    maximum := max
    setMaximumCalls := b.setMaximumCalls ++ [max] }

/-- The end of `QAbstractSlider::setMaximum`, after `rangeChanged` was
delivered: the value is brought back into the range. -/
def QScrollBar.rebound (b : QScrollBar) : QScrollBar :=
  { b with value := max b.minimum (min b.value b.maximum) }

/-- A setter call made on the hosted document. -/
inductive DocumentCall where
  | setPageSize (size : QSizeF)
  | setDocumentMargin (margin : Int)
  | setFrameFormat (margins : QMarginsF)
deriving DecidableEq

/-- The hosted `QTextDocument` as far as the widget reads and writes it: page
size, document margin, margins of the root frame format, and the two results of
the layout engine, page count and height of the laid out content.  The setter
calls are recorded. -/
structure QTextDocument where
  pageSize : QSizeF
  documentMargin : Int
  rootFrameMargins : QMarginsF
  pageCount : Int
  sizeHeight : ℚ
  calls : List DocumentCall
deriving DecidableEq

/-- The call `QTextDocument::setPageSize`. -/
def QTextDocument.setPageSize (d : QTextDocument) (size : QSizeF) : QTextDocument :=
  { d with pageSize := size, calls := d.calls ++ [DocumentCall.setPageSize size] }

/-- The call `QTextDocument::setDocumentMargin`. -/
def QTextDocument.setDocumentMargin (d : QTextDocument) (margin : Int) : QTextDocument :=
  { d with documentMargin := margin, calls := d.calls ++ [DocumentCall.setDocumentMargin margin] }

/-- The call `rootFrame()->setFrameFormat` with a format whose four margins
were set. -/
def QTextDocument.setFrameFormat (d : QTextDocument) (margins : QMarginsF) : QTextDocument :=
  { d with rootFrameMargins := margins, calls := d.calls ++ [DocumentCall.setFrameFormat margins] }

end PagesTextEdit

/-! ## The widget -/

/-- Class PagesTextEdit: its members (`PagesTextEdit.h`) and the part of the
inherited widget state the source reads and writes. -/
structure PagesTextEdit where
  m_usePageMode : Bool
  m_addBottomSpace : Bool
  m_showPageNumbers : Bool
  m_pageNumbersAlignment : Nat
  m_pageMetrics : PagesTextEdit.PageMetrics
  width : Int
  height : Int
  viewportHeight : Int
  viewportMargins : PagesTextEdit.QMargins
  verticalScrollBar : PagesTextEdit.QScrollBar
  horizontalScrollBar : PagesTextEdit.QScrollBar
  document : PagesTextEdit.QTextDocument
  repaintRequests : Nat
deriving DecidableEq

namespace PagesTextEdit

/-! ### Configuration -/

/-- The call `repaint()`: one more paint event is requested from the toolkit. -/
def repaint (s : PagesTextEdit) : PagesTextEdit :=
  { s with repaintRequests := s.repaintRequests + 1 }

/-- Method `PagesTextEdit::setPageFormat`.  The margin argument of
`PageMetrics::update` is left to its default, `QMarginsF()`. -/
def setPageFormat (dev : Device) (s : PagesTextEdit) (_pageFormat : PageSizeId) : PagesTextEdit :=
  repaint { s with m_pageMetrics := s.m_pageMetrics.update dev _pageFormat ⟨0, 0, 0, 0⟩ }

/-- Method `PagesTextEdit::setPageMargins`. -/
def setPageMargins (dev : Device) (s : PagesTextEdit) (_margins : QMarginsMm) : PagesTextEdit :=
  repaint { s with
    m_pageMetrics := s.m_pageMetrics.update dev s.m_pageMetrics.pageFormat _margins }

/-- Method `PagesTextEdit::usePageMode`. -/
def usePageMode (s : PagesTextEdit) : Bool := s.m_usePageMode

/-- Method `PagesTextEdit::setUsePageMode`. -/
def setUsePageMode (s : PagesTextEdit) (_use : Bool) : PagesTextEdit :=
  if s.m_usePageMode != _use then repaint { s with m_usePageMode := _use } else s

/-- Method `PagesTextEdit::setAddSpaceToBottom`. -/
def setAddSpaceToBottom (s : PagesTextEdit) (_addSpace : Bool) : PagesTextEdit :=
  if s.m_addBottomSpace != _addSpace then repaint { s with m_addBottomSpace := _addSpace } else s

/-- Method `PagesTextEdit::setShowPageNumbers`. -/
def setShowPageNumbers (s : PagesTextEdit) (_show : Bool) : PagesTextEdit :=
  if s.m_showPageNumbers != _show then repaint { s with m_showPageNumbers := _show } else s

/-- Method `PagesTextEdit::setPageNumbersAlignment`. -/
def setPageNumbersAlignment (s : PagesTextEdit) (_align : Nat) : PagesTextEdit :=
  if s.m_pageNumbersAlignment != _align then
    repaint { s with m_pageNumbersAlignment := _align }
  else s

/-! ### Geometry and scroll range -/

/-- Method `PagesTextEdit::aboutUpdateDocumentGeometry`. -/
def aboutUpdateDocumentGeometry (s : PagesTextEdit) : PagesTextEdit :=
  let documentSize : QSizeF :=
    if s.m_usePageMode then
      let pageWidth := s.m_pageMetrics.pxPageSize.width
      let pageHeight := s.m_pageMetrics.pxPageSize.height
      ⟨pageWidth, pageHeight⟩
    else ⟨s.width - s.verticalScrollBar.width, -1⟩
  let d1 :=
    if s.document.pageSize ≠ documentSize then s.document.setPageSize documentSize
    else s.document
  let d2 := if d1.documentMargin ≠ 0 then d1.setDocumentMargin 0 else d1
  let rootFrameMargins := s.m_pageMetrics.pxPageMargins
  let d3 :=
    if d2.rootFrameMargins.left ≠ rootFrameMargins.left
        ∨ d2.rootFrameMargins.top ≠ rootFrameMargins.top
        ∨ d2.rootFrameMargins.right ≠ rootFrameMargins.right
        ∨ d2.rootFrameMargins.bottom ≠ rootFrameMargins.bottom then
      d2.setFrameFormat rootFrameMargins
    else d2
  { s with document := d3 }

/-- The call `setViewportMargins`. -/
def setViewportMargins (s : PagesTextEdit) (m : QMargins) : PagesTextEdit :=
  { s with viewportMargins := m }

/-- Method `PagesTextEdit::updateViewportMargins`. -/
def updateViewportMargins (s : PagesTextEdit) : PagesTextEdit :=
  let viewportMargins : QMargins :=
    if s.m_usePageMode then
      let pageWidth := s.m_pageMetrics.pxPageSize.width
      let pageHeight := s.m_pageMetrics.pxPageSize.height
      let DEFAULT_TOP_MARGIN : Int := 20
      let DEFAULT_BOTTOM_MARGIN : Int := 20
      let leftMargin : Int :=
        if s.width > pageWidth then
          let BORDERS_WIDTH : Int := 4
          let VERTICAL_SCROLLBAR_WIDTH : Int :=
            if s.verticalScrollBar.isVisible then s.verticalScrollBar.width else 0
          Int.tdiv (s.width - pageWidth - VERTICAL_SCROLLBAR_WIDTH - BORDERS_WIDTH) 2
        else 0
      let rightMargin : Int := leftMargin
      let topMargin := DEFAULT_TOP_MARGIN
      let documentHeight := pageHeight * s.document.pageCount
      let bottomMargin : Int :=
        if (s.height - documentHeight) > (DEFAULT_TOP_MARGIN + DEFAULT_BOTTOM_MARGIN) then
          let BORDERS_HEIGHT : Int := 2
          let HORIZONTAL_SCROLLBAR_HEIGHT : Int :=
            if s.horizontalScrollBar.isVisible then s.horizontalScrollBar.height else 0
          s.height - documentHeight - HORIZONTAL_SCROLLBAR_HEIGHT - DEFAULT_TOP_MARGIN
            - BORDERS_HEIGHT
        else DEFAULT_BOTTOM_MARGIN
      ⟨leftMargin, topMargin, rightMargin, bottomMargin⟩
    else ⟨0, 0, 0, 0⟩
  aboutUpdateDocumentGeometry (setViewportMargins s viewportMargins)

/-- Slot `PagesTextEdit::aboutVerticalScrollRangeChanged`.  The call back into
`updateVerticalScrollRange` is the argument `updateRange`. -/
def aboutVerticalScrollRangeChanged (updateRange : PagesTextEdit → Option PagesTextEdit)
    (s : PagesTextEdit) (_minimum _maximum : Int) : Option PagesTextEdit :=
  let s1 := updateViewportMargins s
  let scrollValue := s1.verticalScrollBar.value
  if scrollValue > _maximum then updateRange s1 else some s1

/-- The value `maximumValue` computed by `updateVerticalScrollRange`: in page
mode the height of all pages less the viewport height, otherwise the content
height less the viewport height plus `SCROLL_DELTA` when space is added at the
bottom, converted to `int`. -/
def maximumValue (s : PagesTextEdit) : Int :=
  if s.m_usePageMode then
    let pageHeight := s.m_pageMetrics.pxPageSize.height
    let documentHeight := pageHeight * s.document.pageCount
    documentHeight - s.viewportHeight
  else
    let SCROLL_DELTA : Int := 800
    qrealToInt (s.document.sizeHeight - (s.viewportHeight : ℚ)
      + ((if s.m_addBottomSpace then SCROLL_DELTA else 0 : Int) : ℚ))

/-- Method `PagesTextEdit::updateVerticalScrollRange`.  When the computed
maximum differs from the one of the scroll bar it is handed to `setMaximum`; the
scroll bar then emits `rangeChanged`, which the constructor connected to
`aboutVerticalScrollRangeChanged`, and finally re-bounds its value. -/
def updateVerticalScrollRange : Nat → PagesTextEdit → Option PagesTextEdit
  | 0, _ => none
  | fuel + 1, s =>
    if s.verticalScrollBar.maximum ≠ maximumValue s then
      let s1 := { s with verticalScrollBar := s.verticalScrollBar.setMaximum (maximumValue s) }
      (aboutVerticalScrollRangeChanged (updateVerticalScrollRange fuel) s1
          s1.verticalScrollBar.minimum s1.verticalScrollBar.maximum).map
        fun s2 => { s2 with verticalScrollBar := s2.verticalScrollBar.rebound }
    else some s

/-! ### Painting -/

/-- The pens used by the paint functions. -/
inductive Pen where
  | spacePen
  | borderPen
  | textPen
deriving DecidableEq

/-- A call on the painter: `drawLine` with the pen in force, or `drawText` with
rectangle, alignment flags and the number printed. -/
inductive DrawCmd where
  | line (pen : Pen) (x1 y1 x2 y2 : Int)
  | text (rect : QRectF) (flags : Nat) (number : Int)
deriving DecidableEq

/-- The body of the `while` loop of `paintPagesView` at the running height
`curHeight`: the page break background, the lower border of the page that ends,
the top border of the next page, and the left and right borders of the page that
ends. -/
def pageBreakLines (s : PagesTextEdit) (pageHeight x horizontalDelta curHeight : Int) :
    List DrawCmd :=
  [ DrawCmd.line Pen.spacePen 0 (curHeight - 4) s.width (curHeight - 4),
    DrawCmd.line Pen.borderPen 0 (curHeight - 8) x (curHeight - 8),
    DrawCmd.line Pen.borderPen 0 curHeight x curHeight,
    DrawCmd.line Pen.borderPen (0 - horizontalDelta) (curHeight - pageHeight)
      (0 - horizontalDelta) (curHeight - 8),
    DrawCmd.line Pen.borderPen (x - horizontalDelta) (curHeight - pageHeight)
      (x - horizontalDelta) (curHeight - 8) ]

/-- The loop `while (curHeight <= height())` of `paintPagesView`.  The result is
the running height at the exit and the lines drawn. -/
def paintPagesViewLoop (s : PagesTextEdit) (pageHeight x horizontalDelta : Int) :
    Nat → Int → Option (Int × List DrawCmd)
  | 0, _ => none
  | fuel + 1, curHeight =>
    if curHeight ≤ s.height then
      (paintPagesViewLoop s pageHeight x horizontalDelta fuel (curHeight + pageHeight)).map
        fun r => (r.1, pageBreakLines s pageHeight x horizontalDelta curHeight ++ r.2)
    else some (curHeight, [])

/-- The side borders drawn by `paintPagesView` after the loop, from the top of
the page that does not fit down to the bottom of the widget. -/
def closingLines (s : PagesTextEdit) (pageHeight x horizontalDelta curHeight : Int) :
    List DrawCmd :=
  if curHeight ≥ s.height then
    [ DrawCmd.line Pen.borderPen (0 - horizontalDelta) (curHeight - pageHeight)
        (0 - horizontalDelta) s.height,
      DrawCmd.line Pen.borderPen (x - horizontalDelta) (curHeight - pageHeight)
        (x - horizontalDelta) s.height ]
  else []

/-- The top border drawn by `paintPagesView` before the loop. -/
def topBorderLine (pageHeight x curHeight : Int) : List DrawCmd :=
  if curHeight - pageHeight ≥ 0 then
    [DrawCmd.line Pen.borderPen 0 (curHeight - pageHeight) x (curHeight - pageHeight)]
  else []

/-- Method `PagesTextEdit::paintPagesView`.  A page height of zero makes the
remainder `value % (int)pageHeight` undefined; no result is given then. -/
def paintPagesView (fuel : Nat) (s : PagesTextEdit) : Option (List DrawCmd) :=
  if s.m_usePageMode then
    let pageWidth := s.m_pageMetrics.pxPageSize.width
    let pageHeight := s.m_pageMetrics.pxPageSize.height
    if pageHeight = 0 then none
    else
      let curHeight := pageHeight - Int.tmod s.verticalScrollBar.value pageHeight
      let x := pageWidth + (if Int.tmod s.width 2 = 0 then 2 else 1)
      let horizontalDelta := s.horizontalScrollBar.value
      (paintPagesViewLoop s pageHeight x horizontalDelta fuel curHeight).map fun r =>
        topBorderLine pageHeight x curHeight ++ r.2
          ++ closingLines s pageHeight x horizontalDelta r.1
  else some []

/-- Method `PagesTextEdit::paintPageNumber`: what it draws. -/
def paintPageNumber (s : PagesTextEdit) (_rect : QRectF) (_isHeader : Bool) (_number : Int) :
    List DrawCmd :=
  if _isHeader then
    if testFlag s.m_pageNumbersAlignment AlignTop then
      [DrawCmd.text _rect (AlignVCenter ||| (s.m_pageNumbersAlignment ^^^ AlignTop)) _number]
    else []
  else
    if testFlag s.m_pageNumbersAlignment AlignBottom then
      [DrawCmd.text _rect (AlignVCenter ||| (s.m_pageNumbersAlignment ^^^ AlignBottom)) _number]
    else []

/-- A call of `paintPageNumber` made by `paintPageNumbers`. -/
structure PageNumberCall where
  rect : QRectF
  isHeader : Bool
  number : Int
deriving DecidableEq

/-- The loop `while (curHeight < height())` of `paintPageNumbers`: the calls of
`paintPageNumber` it makes, for the bottom margin of the page that ends at
`curHeight` and, with the number advanced, for the top margin of the next
page. -/
def paintPageNumbersLoop (s : PagesTextEdit) (pageSize : QSizeF) (pageMargins : QMarginsF)
    (leftMarginPosition marginWidth : Int) : Nat → Int → Int → Option (List PageNumberCall)
  | 0, _, _ => none
  | fuel + 1, curHeight, pageNumber =>
    if curHeight < s.height then
      let bottomMarginRect : QRectF :=
        ⟨leftMarginPosition, curHeight - pageMargins.bottom, marginWidth, pageMargins.bottom⟩
      let topMarginRect : QRectF := ⟨leftMarginPosition, curHeight, marginWidth, pageMargins.top⟩
      (paintPageNumbersLoop s pageSize pageMargins leftMarginPosition marginWidth fuel
          (curHeight + pageSize.height) (pageNumber + 1)).map
        fun r => [⟨bottomMarginRect, false, pageNumber⟩, ⟨topMarginRect, true, pageNumber + 1⟩] ++ r
    else some []

/-- The calls of `paintPageNumber` made by `PagesTextEdit::paintPageNumbers`, in
order.  A page height of zero makes the remainder undefined; no result is given
then. -/
def paintPageNumbersCalls (fuel : Nat) (s : PagesTextEdit) : Option (List PageNumberCall) :=
  if s.m_usePageMode && !s.m_pageMetrics.pxPageMargins.isNull && s.m_showPageNumbers then
    let pageSize := s.m_pageMetrics.pxPageSize
    let pageMargins := s.m_pageMetrics.pxPageMargins
    if pageSize.height = 0 then none
    else
      let curHeight := pageSize.height - Int.tmod s.verticalScrollBar.value pageSize.height
      let leftMarginPosition := pageMargins.left - s.horizontalScrollBar.value
      let marginWidth := pageSize.width - pageMargins.left - pageMargins.right
      let pageNumber : Int :=
        qrealToInt ((s.verticalScrollBar.value : ℚ) / (pageSize.height : ℚ) + 1)
      let first : List PageNumberCall :=
        if curHeight - pageMargins.top ≥ 0 then
          [⟨⟨leftMarginPosition, curHeight - pageSize.height, marginWidth, pageMargins.top⟩,
            true, pageNumber⟩]
        else []
      (paintPageNumbersLoop s pageSize pageMargins leftMarginPosition marginWidth fuel
          curHeight pageNumber).map fun r => first ++ r
  else some []

/-- Method `PagesTextEdit::paintPageNumbers`: what it draws. -/
def paintPageNumbers (fuel : Nat) (s : PagesTextEdit) : Option (List DrawCmd) :=
  (paintPageNumbersCalls fuel s).map fun calls =>
    (calls.map fun c => paintPageNumber s c.rect c.isHeader c.number).flatten

/-- Handler `PagesTextEdit::paintEvent`: the state it leaves and what the widget
itself draws before the base class paints the text. -/
def paintEvent (fuel : Nat) (s : PagesTextEdit) : Option (PagesTextEdit × List DrawCmd) :=
  match updateVerticalScrollRange fuel s with
  | none => none
  | some s1 =>
    match paintPagesView fuel s1, paintPageNumbers fuel s1 with
    | some pages, some numbers => some (s1, pages ++ numbers)
    | _, _ => none

/-- Handler `PagesTextEdit::resizeEvent`. -/
def resizeEvent (fuel : Nat) (s : PagesTextEdit) : Option PagesTextEdit :=
  updateVerticalScrollRange fuel (updateViewportMargins s)

/-! ## Auxiliary definitions for the statements -/

/-- The state in which `updateVerticalScrollRange` leaves the widget when it has
to change the maximum of the scroll bar. -/
def afterRangeChange (s : PagesTextEdit) : PagesTextEdit :=
  let s2 := updateViewportMargins
    { s with verticalScrollBar := s.verticalScrollBar.setMaximum (maximumValue s) }
  { s2 with verticalScrollBar := s2.verticalScrollBar.rebound }

/-- The number of running heights `curHeight + k * pageHeight`, `k = 0, 1, ...`,
that are at most `height`. -/
def breakCount (pageHeight height curHeight : Int) : Nat :=
  ((height - curHeight + pageHeight) / pageHeight).toNat

/-- The rectangle `bottomMarginRect` that `paintPageNumbers` forms for a page
whose lower edge is at the screen height `y`. -/
def bottomMarginRect (s : PagesTextEdit) (y : Int) : QRectF :=
  ⟨s.m_pageMetrics.pxPageMargins.left - s.horizontalScrollBar.value,
    y - s.m_pageMetrics.pxPageMargins.bottom,
    s.m_pageMetrics.pxPageSize.width - s.m_pageMetrics.pxPageMargins.left
      - s.m_pageMetrics.pxPageMargins.right,
    s.m_pageMetrics.pxPageMargins.bottom⟩

/-- The size `documentSize` that `aboutUpdateDocumentGeometry` wants the document
to have: the pixel page size in page mode, otherwise the width left of the
vertical scroll bar and the height -1. -/
def documentSize (s : PagesTextEdit) : QSizeF :=
  if s.m_usePageMode then
    ⟨s.m_pageMetrics.pxPageSize.width, s.m_pageMetrics.pxPageSize.height⟩
  else ⟨s.width - s.verticalScrollBar.width, -1⟩

/-- The rectangle `topMarginRect` that `paintPageNumbers` forms for a page whose
upper edge is at the screen height `y`. -/
def topMarginRect (s : PagesTextEdit) (y : Int) : QRectF :=
  ⟨s.m_pageMetrics.pxPageMargins.left - s.horizontalScrollBar.value,
    y,
    s.m_pageMetrics.pxPageSize.width - s.m_pageMetrics.pxPageMargins.left
      - s.m_pageMetrics.pxPageMargins.right,
    s.m_pageMetrics.pxPageMargins.top⟩

/-! ### Sample states -/

/-- A widget as the constructor leaves it (continuous mode, space added at the
bottom, page numbers shown at the top right), 1000 by 700 pixels, showing an A4
page of 794 by 1123 pixels without margins and an empty scroll range. -/
def sampleWidget : PagesTextEdit :=
  { m_usePageMode := false
    m_addBottomSpace := true
    m_showPageNumbers := true
    m_pageNumbersAlignment := AlignTop ||| AlignRight
    m_pageMetrics :=
      { m_pageFormat := 0
        m_mmPageSize := ⟨210, 297⟩
        m_mmPageMargins := ⟨0, 0, 0, 0⟩
        m_pxPageSize := ⟨794, 1123⟩
        m_pxPageMargins := ⟨0, 0, 0, 0⟩ }
    width := 1000
    height := 700
    viewportHeight := 700
    viewportMargins := ⟨0, 0, 0, 0⟩
    verticalScrollBar :=
      { minimum := 0, maximum := 0, value := 0, isVisible := true, width := 17, height := 700,
        setMaximumCalls := [] }
    horizontalScrollBar :=
      { minimum := 0, maximum := 0, value := 0, isVisible := false, width := 1000, height := 17,
        setMaximumCalls := [] }
    document :=
      { pageSize := ⟨983, -1⟩
        documentMargin := 4
        rootFrameMargins := ⟨0, 0, 0, 0⟩
        pageCount := 1
        sizeHeight := 0
        calls := [] }
    repaintRequests := 0 }

/-- The sample widget in page mode with the given pixel page size and pixel
margins, page count, widget height and vertical scroll value. -/
def pagedWidget (pageSize : QSizeF) (pageMargins : QMarginsF) (pageCount height value : Int) :
    PagesTextEdit :=
  { sampleWidget with
    m_usePageMode := true
    m_pageMetrics := { sampleWidget.m_pageMetrics with
      m_pxPageSize := pageSize, m_pxPageMargins := pageMargins }
    height := height
    viewportHeight := height
    verticalScrollBar := { sampleWidget.verticalScrollBar with value := value }
    document := { sampleWidget.document with pageCount := pageCount } }

/-- A widget in continuous mode with space added at the bottom, whose document
is 5000.5 pixels high in a viewport of height 700, the scroll maximum being
0. -/
def fractionalHeightWidget : PagesTextEdit :=
  { sampleWidget with document := { sampleWidget.document with sizeHeight := 10001 / 2 } }

/-- A widget in page mode, 1500 high and scrolled to the top, showing pages of
794 by 1000 pixels with margins of 50 pixels, page numbers at the bottom
centre. -/
def bottomNumbersWidget : PagesTextEdit :=
  { pagedWidget ⟨794, 1000⟩ ⟨50, 50, 50, 50⟩ 3 1500 0 with
    m_pageNumbersAlignment := AlignBottom ||| AlignHCenter }

/-- A screen of 96 dots per inch on both axes, with A4 (210 by 297 mm) as
format 0 and Letter (215.9 by 279.4 mm) for every other format. -/
def screen96 : Device :=
  { physicalDpiX := 96
    physicalDpiY := 96
    pageSizeMm := fun id => if id = 0 then ⟨210, 297⟩ else ⟨2159 / 10, 2794 / 10⟩ }

/-- A widget in page mode, 700 high, showing three A4 pages of 794 by 1123
pixels without margins.  The document mirrors the page metrics and the scroll
maximum already is `1123 * 3 - 700 = 2669`. -/
def syncedWidget : PagesTextEdit :=
  { pagedWidget ⟨794, 1123⟩ ⟨0, 0, 0, 0⟩ 3 700 0 with
    verticalScrollBar := { sampleWidget.verticalScrollBar with maximum := 2669 }
    document :=
      { pageSize := ⟨794, 1123⟩
        documentMargin := 0
        rootFrameMargins := ⟨0, 0, 0, 0⟩
        pageCount := 3
        sizeHeight := 3369
        calls := [] } }

/-- A widget in page mode, 1500 high and scrolled to the top, showing three A4
pages of 794 by 1123 pixels with margins of 76 pixels (20 mm), page numbers shown
at the top right. -/
def marginsWidget : PagesTextEdit :=
  { pagedWidget ⟨794, 1123⟩ ⟨76, 76, 76, 76⟩ 3 1500 0 with
    m_pageMetrics :=
      { m_pageFormat := 0
        m_mmPageSize := ⟨210, 297⟩
        m_mmPageMargins := ⟨20, 20, 20, 20⟩
        m_pxPageSize := ⟨794, 1123⟩
        m_pxPageMargins := ⟨76, 76, 76, 76⟩ } }

/-- A widget in page mode, 1500 high and scrolled to the top, showing a single
page of 794 by 1000 pixels: the document is shorter than the viewport. -/
def tallWidget : PagesTextEdit := pagedWidget ⟨794, 1000⟩ ⟨0, 0, 0, 0⟩ 1 1500 0

/-- The tall widget after its paint event has changed the scroll range, made
300 pixels high by the toolkit (before the resize event is delivered). -/
def shrunkWidget : PagesTextEdit :=
  { afterRangeChange tallWidget with height := 300, viewportHeight := 300 }

/-- The bottom numbers widget after `setPageNumbersAlignment` with
`Qt::AlignCenter`, that is `AlignVCenter | AlignHCenter`: neither `AlignTop` nor
`AlignBottom` is set. -/
def centredNumbersWidget : PagesTextEdit :=
  setPageNumbersAlignment bottomNumbersWidget (AlignVCenter ||| AlignHCenter)

/-- The bottom numbers widget after `setPageNumbersAlignment` with
`AlignTop | AlignBottom | AlignRight`: both vertical flags are set. -/
def doubleNumbersWidget : PagesTextEdit :=
  setPageNumbersAlignment bottomNumbersWidget (AlignTop ||| AlignBottom ||| AlignRight)

/-- A widget in page mode, 2500 high and scrolled to the top, whose document of
two pages of 794 by 1000 pixels with margins of 50 pixels is shorter than the
viewport, page numbers at the bottom centre. -/
def shortDocumentWidget : PagesTextEdit :=
  { pagedWidget ⟨794, 1000⟩ ⟨50, 50, 50, 50⟩ 2 2500 0 with
    m_pageNumbersAlignment := AlignBottom ||| AlignHCenter }

/-! ## Frame lemmas for the geometry functions -/

theorem aboutUpdateDocumentGeometry_frame (s : PagesTextEdit) :
    (aboutUpdateDocumentGeometry s).m_usePageMode = s.m_usePageMode
    ∧ (aboutUpdateDocumentGeometry s).m_addBottomSpace = s.m_addBottomSpace
    ∧ (aboutUpdateDocumentGeometry s).m_showPageNumbers = s.m_showPageNumbers
    ∧ (aboutUpdateDocumentGeometry s).m_pageNumbersAlignment = s.m_pageNumbersAlignment
    ∧ (aboutUpdateDocumentGeometry s).m_pageMetrics = s.m_pageMetrics
    ∧ (aboutUpdateDocumentGeometry s).width = s.width
    ∧ (aboutUpdateDocumentGeometry s).height = s.height
    ∧ (aboutUpdateDocumentGeometry s).viewportHeight = s.viewportHeight
    ∧ (aboutUpdateDocumentGeometry s).viewportMargins = s.viewportMargins
    ∧ (aboutUpdateDocumentGeometry s).verticalScrollBar = s.verticalScrollBar
    ∧ (aboutUpdateDocumentGeometry s).horizontalScrollBar = s.horizontalScrollBar
    ∧ (aboutUpdateDocumentGeometry s).repaintRequests = s.repaintRequests
    ∧ (aboutUpdateDocumentGeometry s).document.pageCount = s.document.pageCount
    ∧ (aboutUpdateDocumentGeometry s).document.sizeHeight = s.document.sizeHeight := by
  refine ⟨rfl, rfl, rfl, rfl, rfl, rfl, rfl, rfl, rfl, rfl, rfl, rfl, ?_, ?_⟩ <;>
    (simp only [aboutUpdateDocumentGeometry, QTextDocument.setPageSize,
      QTextDocument.setDocumentMargin, QTextDocument.setFrameFormat]
     split_ifs <;> rfl)

theorem updateViewportMargins_frame (s : PagesTextEdit) :
    (updateViewportMargins s).m_usePageMode = s.m_usePageMode
    ∧ (updateViewportMargins s).m_addBottomSpace = s.m_addBottomSpace
    ∧ (updateViewportMargins s).m_showPageNumbers = s.m_showPageNumbers
    ∧ (updateViewportMargins s).m_pageNumbersAlignment = s.m_pageNumbersAlignment
    ∧ (updateViewportMargins s).m_pageMetrics = s.m_pageMetrics
    ∧ (updateViewportMargins s).width = s.width
    ∧ (updateViewportMargins s).height = s.height
    ∧ (updateViewportMargins s).viewportHeight = s.viewportHeight
    ∧ (updateViewportMargins s).verticalScrollBar = s.verticalScrollBar
    ∧ (updateViewportMargins s).horizontalScrollBar = s.horizontalScrollBar
    ∧ (updateViewportMargins s).repaintRequests = s.repaintRequests
    ∧ (updateViewportMargins s).document.pageCount = s.document.pageCount
    ∧ (updateViewportMargins s).document.sizeHeight = s.document.sizeHeight := by
  unfold updateViewportMargins
  generalize (if s.m_usePageMode = true then _ else _ : QMargins) = m
  obtain ⟨h1, h2, h3, h4, h5, h6, h7, h8, -, h10, h11, h12, h13, h14⟩ :=
    aboutUpdateDocumentGeometry_frame (setViewportMargins s m)
  exact ⟨h1, h2, h3, h4, h5, h6, h7, h8, h10, h11, h12, h13, h14⟩

theorem maximumValue_congr (s t : PagesTextEdit)
    (h1 : t.m_usePageMode = s.m_usePageMode) (h2 : t.m_addBottomSpace = s.m_addBottomSpace)
    (h3 : t.m_pageMetrics = s.m_pageMetrics) (h4 : t.viewportHeight = s.viewportHeight)
    (h5 : t.document.pageCount = s.document.pageCount)
    (h6 : t.document.sizeHeight = s.document.sizeHeight) :
    maximumValue t = maximumValue s := by
  simp only [maximumValue, h1, h2, h3, h4, h5, h6]

theorem updateVerticalScrollRange_eq (fuel : Nat) (s : PagesTextEdit) (hf : 2 ≤ fuel) :
    updateVerticalScrollRange fuel s =
      some (if s.verticalScrollBar.maximum ≠ maximumValue s then afterRangeChange s else s) := by
  obtain ⟨f, rfl⟩ : ∃ f, fuel = f + 2 := ⟨fuel - 2, by omega⟩
  by_cases h : s.verticalScrollBar.maximum = maximumValue s
  · simp [updateVerticalScrollRange, h]
  · set s1 : PagesTextEdit :=
      { s with verticalScrollBar := s.verticalScrollBar.setMaximum (maximumValue s) } with hs1
    have hfr := updateViewportMargins_frame s1
    obtain ⟨h1, h2, -, -, h5, -, -, h8, h9, -, -, h12, h13⟩ := hfr
    have hm : maximumValue (updateViewportMargins s1) = maximumValue s :=
      (maximumValue_congr s1 _ h1 h2 h5 h8 h12 h13).trans
        (maximumValue_congr s s1 rfl rfl rfl rfl rfl rfl)
    have hmax : (updateViewportMargins s1).verticalScrollBar.maximum = maximumValue s := by
      rw [h9]; rfl
    have hrec : updateVerticalScrollRange (f + 1) (updateViewportMargins s1)
        = some (updateViewportMargins s1) := by
      simp [updateVerticalScrollRange, hm, hmax]
    rw [updateVerticalScrollRange]
    simp only [ne_eq, h, not_false_eq_true, if_true, aboutVerticalScrollRangeChanged, ← hs1,
      afterRangeChange, hrec]
    split_ifs <;> rfl

theorem updateVerticalScrollRange_result (fuel : Nat) (s : PagesTextEdit) (hfuel : 2 ≤ fuel) :
    ∃ s', updateVerticalScrollRange fuel s = some s'
      ∧ s'.verticalScrollBar.maximum = maximumValue s
      ∧ s'.verticalScrollBar.setMaximumCalls
          = (if s.verticalScrollBar.maximum = maximumValue s
             then s.verticalScrollBar.setMaximumCalls
             else s.verticalScrollBar.setMaximumCalls ++ [maximumValue s]) := by
  refine ⟨_, updateVerticalScrollRange_eq fuel s hfuel, ?_, ?_⟩
  · split_ifs with h
    · simp only [afterRangeChange, QScrollBar.rebound]
      rw [(updateViewportMargins_frame _).2.2.2.2.2.2.2.2.1]
      rfl
    · exact not_not.mp h
  · by_cases h : s.verticalScrollBar.maximum = maximumValue s
    · simp [h]
    · simp only [ne_eq, h, not_false_eq_true, if_true, if_false, afterRangeChange,
        QScrollBar.rebound]
      rw [(updateViewportMargins_frame _).2.2.2.2.2.2.2.2.1]
      rfl

theorem maximumValue_paged (s : PagesTextEdit) (hmode : s.m_usePageMode = true) :
    maximumValue s
      = s.m_pageMetrics.pxPageSize.height * s.document.pageCount - s.viewportHeight := by
  simp [maximumValue, hmode]

theorem maximumValue_continuous (s : PagesTextEdit) (hmode : s.m_usePageMode = false) :
    maximumValue s
      = qrealToInt (s.document.sizeHeight - (s.viewportHeight : ℚ)
          + (if s.m_addBottomSpace then 800 else 0)) := by
  simp only [maximumValue, hmode]
  cases s.m_addBottomSpace <;> simp

theorem qrealToInt_intCast (c : Int) : qrealToInt (c : ℚ) = c := by
  simp [qrealToInt, Int.tdiv_one]

theorem updateViewportMargins_paged (s : PagesTextEdit) (hmode : s.m_usePageMode = true) :
    (updateViewportMargins s).viewportMargins =
      ⟨(if s.width > s.m_pageMetrics.pxPageSize.width then
          Int.tdiv (s.width - s.m_pageMetrics.pxPageSize.width
            - (if s.verticalScrollBar.isVisible then s.verticalScrollBar.width else 0) - 4) 2
        else 0),
       20,
       (if s.width > s.m_pageMetrics.pxPageSize.width then
          Int.tdiv (s.width - s.m_pageMetrics.pxPageSize.width
            - (if s.verticalScrollBar.isVisible then s.verticalScrollBar.width else 0) - 4) 2
        else 0),
       (if s.height - s.m_pageMetrics.pxPageSize.height * s.document.pageCount > 20 + 20 then
          s.height - s.m_pageMetrics.pxPageSize.height * s.document.pageCount
            - (if s.horizontalScrollBar.isVisible then s.horizontalScrollBar.height else 0)
            - 20 - 2
        else 20)⟩ := by
  unfold updateViewportMargins
  rw [(aboutUpdateDocumentGeometry_frame _).2.2.2.2.2.2.2.2.1]
  simp only [setViewportMargins, hmode, if_true]

theorem tdiv_two_cases (d : Int) :
    (0 ≤ d ∧ Int.tdiv d 2 = d / 2) ∨ (d < 0 ∧ Int.tdiv d 2 = -((-d) / 2)) := by
  rcases le_or_lt 0 d with h | h
  · exact Or.inl ⟨h, Int.tdiv_eq_ediv h (by decide)⟩
  · refine Or.inr ⟨h, ?_⟩
    have h2 : Int.tdiv (-d) 2 = (-d) / 2 := Int.tdiv_eq_ediv (by omega) (by decide)
    rw [← h2, Int.neg_tdiv, neg_neg]

/-! ## The page loops -/

theorem lt_breakCount_iff (pageHeight height curHeight : Int) (hph : 1 ≤ pageHeight) (k : Nat) :
    k < breakCount pageHeight height curHeight ↔ curHeight + k * pageHeight ≤ height := by
  unfold breakCount
  rw [Int.lt_toNat]
  have hpos : 0 < pageHeight := by omega
  constructor
  · intro h
    have h1 : ((k : Int) + 1) ≤ (height - curHeight + pageHeight) / pageHeight := by omega
    have h2 := (Int.le_ediv_iff_mul_le hpos).mp h1
    linarith
  · intro h
    have h1 : ((k : Int) + 1) * pageHeight ≤ height - curHeight + pageHeight := by linarith
    have h2 := (Int.le_ediv_iff_mul_le hpos).mpr h1
    omega

theorem breakCount_of_gt (pageHeight height curHeight : Int) (hph : 1 ≤ pageHeight)
    (h : height < curHeight) : breakCount pageHeight height curHeight = 0 := by
  by_contra hne
  have h0 : 0 < breakCount pageHeight height curHeight := Nat.pos_of_ne_zero hne
  have := (lt_breakCount_iff pageHeight height curHeight hph 0).mp h0
  simp at this
  omega

theorem breakCount_step (pageHeight height curHeight : Int) (hph : 1 ≤ pageHeight)
    (h : curHeight ≤ height) :
    breakCount pageHeight height curHeight
      = breakCount pageHeight height (curHeight + pageHeight) + 1 := by
  apply le_antisymm
  · by_contra hlt
    push_neg at hlt
    have h1 := (lt_breakCount_iff pageHeight height curHeight hph
      (breakCount pageHeight height (curHeight + pageHeight) + 1)).mp hlt
    have h2 : breakCount pageHeight height (curHeight + pageHeight)
        < breakCount pageHeight height (curHeight + pageHeight) :=
      (lt_breakCount_iff pageHeight height (curHeight + pageHeight) hph _).mpr (by
        push_cast at h1; linarith)
    exact lt_irrefl _ h2
  · rcases Nat.eq_zero_or_pos (breakCount pageHeight height (curHeight + pageHeight)) with h0 | h0
    · rw [h0]
      exact (lt_breakCount_iff pageHeight height curHeight hph 0).mpr (by simpa using h)
    · obtain ⟨m, hm⟩ : ∃ m, breakCount pageHeight height (curHeight + pageHeight) = m + 1 :=
        ⟨_, (Nat.succ_pred_eq_of_pos h0).symm⟩
      have h1 := (lt_breakCount_iff pageHeight height (curHeight + pageHeight) hph m).mp
        (by omega)
      have h2 := (lt_breakCount_iff pageHeight height curHeight hph (m + 1)).mpr (by
        push_cast; linarith)
      omega

theorem breakCount_le (pageHeight h1 h2 c1 c2 : Int) (hph : 1 ≤ pageHeight) (hh : h1 ≤ h2)
    (hc : c2 ≤ c1) : breakCount pageHeight h1 c1 ≤ breakCount pageHeight h2 c2 := by
  by_contra hlt
  push_neg at hlt
  have h := (lt_breakCount_iff pageHeight h1 c1 hph _).mp hlt
  have h' := (lt_breakCount_iff pageHeight h2 c2 hph (breakCount pageHeight h2 c2)).mpr
    (by linarith)
  exact lt_irrefl _ h'

theorem paintPagesViewLoop_eq (s : PagesTextEdit) (pageHeight x horizontalDelta : Int)
    (hph : 1 ≤ pageHeight) (fuel : Nat) :
    ∀ curHeight : Int, breakCount pageHeight s.height curHeight < fuel →
      paintPagesViewLoop s pageHeight x horizontalDelta fuel curHeight
        = some (curHeight + breakCount pageHeight s.height curHeight * pageHeight,
            (List.range (breakCount pageHeight s.height curHeight)).flatMap fun (k : Nat) =>
              pageBreakLines s pageHeight x horizontalDelta (curHeight + k * pageHeight)) := by
  induction fuel with
  | zero => intro curHeight h; exact absurd h (Nat.not_lt_zero _)
  | succ fuel ih =>
    intro curHeight hlt
    rw [paintPagesViewLoop]
    by_cases hc : curHeight ≤ s.height
    · have hstep := breakCount_step pageHeight s.height curHeight hph hc
      rw [if_pos hc, ih (curHeight + pageHeight) (by omega), hstep, List.range_succ_eq_map]
      simp only [Option.map_some', List.flatMap_cons, List.flatMap_map, Nat.succ_eq_add_one]
      congr 2
      · push_cast; ring
      · congr 1
        · simp
        · congr 1
          funext k
          congr 1
          push_cast; ring
    · have h0 := breakCount_of_gt pageHeight s.height curHeight hph (not_le.mp hc)
      rw [if_neg hc, h0]
      simp

theorem break_positions_iff (pageHeight height v : Int) (hph : 1 ≤ pageHeight) (y : Int) :
    (∃ k : Nat, k < breakCount pageHeight height (pageHeight - v % pageHeight)
        ∧ y = pageHeight - v % pageHeight + k * pageHeight)
      ↔ (1 ≤ y ∧ y ≤ height ∧ pageHeight ∣ v + y) := by
  have hpos : 0 < pageHeight := by omega
  have hmod1 : 0 ≤ v % pageHeight := Int.emod_nonneg _ (by omega)
  have hmod2 : v % pageHeight < pageHeight := Int.emod_lt_of_pos _ hpos
  have hdiv : pageHeight * (v / pageHeight) + v % pageHeight = v := Int.ediv_add_emod v pageHeight
  constructor
  · rintro ⟨k, hk, rfl⟩
    have hk2 := (lt_breakCount_iff pageHeight height _ hph k).mp hk
    have hk0 : (0 : Int) ≤ (k : Int) * pageHeight :=
      mul_nonneg (Int.ofNat_nonneg k) (by omega)
    refine ⟨by linarith, hk2, ⟨v / pageHeight + 1 + k, ?_⟩⟩
    have : pageHeight * (v / pageHeight + 1 + (k : Int))
        = pageHeight * (v / pageHeight) + pageHeight + (k : Int) * pageHeight := by ring
    linarith
  · rintro ⟨h1, h2, m, hm⟩
    have hgt : v / pageHeight < m := by
      by_contra hle
      push_neg at hle
      have := mul_le_mul_of_nonneg_left hle (le_of_lt hpos)
      linarith
    have hj : (((m - v / pageHeight - 1).toNat : Nat) : Int) = m - v / pageHeight - 1 :=
      Int.toNat_of_nonneg (by omega)
    have hy : y = pageHeight - v % pageHeight
        + (((m - v / pageHeight - 1).toNat : Nat) : Int) * pageHeight := by
      rw [hj]
      have : (m - v / pageHeight - 1) * pageHeight
          = pageHeight * m - pageHeight * (v / pageHeight) - pageHeight := by ring
      linarith
    refine ⟨(m - v / pageHeight - 1).toNat, ?_, hy⟩
    exact (lt_breakCount_iff pageHeight height _ hph _).mpr (by rw [← hy]; exact h2)

theorem one_le_first_curHeight (pageHeight v : Int) (hph : 1 ≤ pageHeight) :
    1 ≤ pageHeight - Int.tmod v pageHeight := by
  have := Int.tmod_lt_of_pos v (by omega : 0 < pageHeight)
  omega

theorem paintPageNumbersLoop_eq (s : PagesTextEdit) (pageSize : QSizeF) (pageMargins : QMarginsF)
    (leftMarginPosition marginWidth : Int) (hph : 1 ≤ pageSize.height) (fuel : Nat) :
    ∀ curHeight pageNumber : Int,
      breakCount pageSize.height (s.height - 1) curHeight < fuel →
      paintPageNumbersLoop s pageSize pageMargins leftMarginPosition marginWidth fuel
          curHeight pageNumber
        = some ((List.range (breakCount pageSize.height (s.height - 1) curHeight)).flatMap
            fun (k : Nat) =>
              [(⟨⟨leftMarginPosition, curHeight + k * pageSize.height - pageMargins.bottom,
                    marginWidth, pageMargins.bottom⟩, false, pageNumber + k⟩ : PageNumberCall),
               ⟨⟨leftMarginPosition, curHeight + k * pageSize.height, marginWidth,
                    pageMargins.top⟩, true, pageNumber + k + 1⟩]) := by
  induction fuel with
  | zero => intro curHeight pageNumber h; exact absurd h (Nat.not_lt_zero _)
  | succ fuel ih =>
    intro curHeight pageNumber hlt
    rw [paintPageNumbersLoop]
    by_cases hc : curHeight < s.height
    · have hstep := breakCount_step pageSize.height (s.height - 1) curHeight hph (by omega)
      rw [if_pos hc, ih (curHeight + pageSize.height) (pageNumber + 1) (by omega), hstep,
        List.range_succ_eq_map]
      simp only [Option.map_some', List.flatMap_cons, List.flatMap_map, Nat.succ_eq_add_one]
      congr 2
      · simp
      · congr 1
        funext k
        have e1 : curHeight + pageSize.height + (k : Int) * pageSize.height
            = curHeight + ((k + 1 : Nat) : Int) * pageSize.height := by push_cast; ring
        have e2 : pageNumber + 1 + (k : Int) = pageNumber + ((k + 1 : Nat) : Int) := by
          push_cast; ring
        rw [e1, e2]
    · have h0 := breakCount_of_gt pageSize.height (s.height - 1) curHeight hph (by omega)
      rw [if_neg hc, h0]
      simp

theorem firstPageNumber_eq (v pageHeight : Int) (hv : 0 ≤ v) (hph : 1 ≤ pageHeight) :
    qrealToInt ((v : ℚ) / (pageHeight : ℚ) + 1) = v / pageHeight + 1 := by
  have hq : (0 : ℚ) ≤ (v : ℚ) / (pageHeight : ℚ) + 1 := by
    have h1 : (0 : ℚ) ≤ (v : ℚ) := by exact_mod_cast hv
    have h2 : (0 : ℚ) ≤ (pageHeight : ℚ) := by exact_mod_cast (by omega : (0 : Int) ≤ pageHeight)
    positivity
  have hnum : 0 ≤ ((v : ℚ) / (pageHeight : ℚ) + 1).num := Rat.num_nonneg.mpr hq
  unfold qrealToInt
  rw [Int.tdiv_eq_ediv hnum (Int.ofNat_nonneg _), ← Rat.floor_def, Int.floor_add_one]
  have hcast : (pageHeight : ℚ) = ((pageHeight.toNat : Nat) : ℚ) := by
    have : ((pageHeight.toNat : Nat) : Int) = pageHeight := Int.toNat_of_nonneg (by omega)
    exact_mod_cast this.symm
  rw [hcast, Rat.floor_intCast_div_natCast, Int.toNat_of_nonneg (by omega)]

theorem paintPageNumbersCalls_eq (fuel : Nat) (s : PagesTextEdit) (pageHeight v : Int)
    (hmode : s.m_usePageMode = true)
    (hmargins : s.m_pageMetrics.pxPageMargins.isNull = false)
    (hshow : s.m_showPageNumbers = true)
    (hheight : s.m_pageMetrics.pxPageSize.height = pageHeight)
    (hvalue : s.verticalScrollBar.value = v)
    (hph : 1 ≤ pageHeight) (hv : 0 ≤ v)
    (hfuel : breakCount pageHeight (s.height - 1) (pageHeight - v % pageHeight) < fuel) :
    paintPageNumbersCalls fuel s
      = some ((if pageHeight - v % pageHeight - s.m_pageMetrics.pxPageMargins.top ≥ 0 then
            [(⟨⟨s.m_pageMetrics.pxPageMargins.left - s.horizontalScrollBar.value,
                pageHeight - v % pageHeight - pageHeight,
                s.m_pageMetrics.pxPageSize.width - s.m_pageMetrics.pxPageMargins.left
                  - s.m_pageMetrics.pxPageMargins.right,
                s.m_pageMetrics.pxPageMargins.top⟩, true, v / pageHeight + 1⟩ : PageNumberCall)]
          else [])
        ++ (List.range (breakCount pageHeight (s.height - 1) (pageHeight - v % pageHeight))).flatMap
            fun (k : Nat) =>
              [(⟨⟨s.m_pageMetrics.pxPageMargins.left - s.horizontalScrollBar.value,
                  pageHeight - v % pageHeight + k * pageHeight
                    - s.m_pageMetrics.pxPageMargins.bottom,
                  s.m_pageMetrics.pxPageSize.width - s.m_pageMetrics.pxPageMargins.left
                    - s.m_pageMetrics.pxPageMargins.right,
                  s.m_pageMetrics.pxPageMargins.bottom⟩, false, v / pageHeight + 1 + k⟩
                  : PageNumberCall),
               ⟨⟨s.m_pageMetrics.pxPageMargins.left - s.horizontalScrollBar.value,
                  pageHeight - v % pageHeight + k * pageHeight,
                  s.m_pageMetrics.pxPageSize.width - s.m_pageMetrics.pxPageMargins.left
                    - s.m_pageMetrics.pxPageMargins.right,
                  s.m_pageMetrics.pxPageMargins.top⟩, true, v / pageHeight + 1 + k + 1⟩]) := by
  have hne : pageHeight ≠ 0 := by omega
  have htmod : Int.tmod v pageHeight = v % pageHeight := Int.tmod_eq_emod hv (by omega)
  have hloop := paintPageNumbersLoop_eq s s.m_pageMetrics.pxPageSize s.m_pageMetrics.pxPageMargins
    (s.m_pageMetrics.pxPageMargins.left - s.horizontalScrollBar.value)
    (s.m_pageMetrics.pxPageSize.width - s.m_pageMetrics.pxPageMargins.left
      - s.m_pageMetrics.pxPageMargins.right) (by rw [hheight]; exact hph) fuel
    (pageHeight - v % pageHeight) (v / pageHeight + 1) (by rw [hheight]; exact hfuel)
  rw [hheight] at hloop
  simp only [paintPageNumbersCalls, hmode, hmargins, hshow, Bool.not_false, Bool.and_self,
    if_true, hheight, hvalue, hne, if_false, htmod, firstPageNumber_eq v pageHeight hv hph,
    hloop, Option.map_some']

theorem pageNumber_mul (pageHeight v k : Int) :
    (v / pageHeight + 1 + k) * pageHeight = v + (pageHeight - v % pageHeight + k * pageHeight) := by
  have hdiv : pageHeight * (v / pageHeight) + v % pageHeight = v := Int.ediv_add_emod v pageHeight
  have e : (v / pageHeight + 1 + k) * pageHeight
      = pageHeight * (v / pageHeight) + pageHeight + k * pageHeight := by ring
  linarith

theorem flatten_map_pairs {α β : Type} (F : α → List β) (a b : Nat → α) (l : List Nat) :
    ((l.flatMap fun k => [a k, b k]).map F).flatten = l.flatMap fun k => F (a k) ++ F (b k) := by
  induction l with
  | nil => rfl
  | cons k l ih =>
    simp only [List.flatMap_cons, List.map_append, List.flatten_append, ih, List.map_cons,
      List.map_nil, List.flatten_cons, List.flatten_nil, List.append_nil]

theorem flatMap_singleton_eq_map {β : Type} (f : Nat → β) (l : List Nat) :
    (l.flatMap fun k => [f k]) = l.map f := by
  induction l with
  | nil => rfl
  | cons k l ih => simp only [List.flatMap_cons, ih, List.map_cons, List.singleton_append]

theorem paintPageNumbers_bottom (fuel : Nat) (s : PagesTextEdit) (pageHeight v : Int)
    (hmode : s.m_usePageMode = true)
    (hmargins : s.m_pageMetrics.pxPageMargins.isNull = false)
    (hshow : s.m_showPageNumbers = true)
    (hbottom : testFlag s.m_pageNumbersAlignment AlignBottom = true)
    (htop : testFlag s.m_pageNumbersAlignment AlignTop = false)
    (hheight : s.m_pageMetrics.pxPageSize.height = pageHeight)
    (hvalue : s.verticalScrollBar.value = v)
    (hph : 1 ≤ pageHeight) (hv : 0 ≤ v)
    (hfuel : breakCount pageHeight (s.height - 1) (pageHeight - v % pageHeight) < fuel) :
    paintPageNumbers fuel s
      = some ((List.range (breakCount pageHeight (s.height - 1)
            (pageHeight - v % pageHeight))).map fun (k : Nat) =>
          DrawCmd.text
            ⟨s.m_pageMetrics.pxPageMargins.left - s.horizontalScrollBar.value,
              pageHeight - v % pageHeight + k * pageHeight - s.m_pageMetrics.pxPageMargins.bottom,
              s.m_pageMetrics.pxPageSize.width - s.m_pageMetrics.pxPageMargins.left
                - s.m_pageMetrics.pxPageMargins.right,
              s.m_pageMetrics.pxPageMargins.bottom⟩
            (AlignVCenter ||| (s.m_pageNumbersAlignment ^^^ AlignBottom))
            (v / pageHeight + 1 + k)) := by
  rw [paintPageNumbers, paintPageNumbersCalls_eq fuel s pageHeight v hmode hmargins hshow hheight
    hvalue hph hv hfuel]
  simp only [Option.map_some', List.map_append, List.flatten_append]
  rw [flatten_map_pairs (fun c : PageNumberCall => paintPageNumber s c.rect c.isHeader c.number)]
  have hfirst : ∀ l : List PageNumberCall, (∀ c ∈ l, c.isHeader = true) →
      (l.map fun c => paintPageNumber s c.rect c.isHeader c.number).flatten = [] := by
    intro l hl
    induction l with
    | nil => rfl
    | cons c l ih =>
      have hc := hl c (List.mem_cons_self _ _)
      rw [List.map_cons, List.flatten_cons, ih fun d hd => hl d (List.mem_cons_of_mem _ hd)]
      simp only [paintPageNumber, hc, if_true, htop, Bool.false_eq_true, if_false,
        List.append_nil]
  rw [hfirst _ (by
    intro c hc
    split_ifs at hc
    · rw [List.mem_singleton] at hc; rw [hc]
    · exact absurd hc (List.not_mem_nil _))]
  simp only [paintPageNumber, Bool.false_eq_true, if_false, hbottom, if_true, htop,
    List.append_nil, List.nil_append]
  rw [flatMap_singleton_eq_map]

theorem paintPageNumbersCalls_of_value (fuel : Nat) (s : PagesTextEdit) (pageHeight v : Int)
    (hmode : s.m_usePageMode = true)
    (hmargins : s.m_pageMetrics.pxPageMargins.isNull = false)
    (hshow : s.m_showPageNumbers = true)
    (hheight : s.m_pageMetrics.pxPageSize.height = pageHeight)
    (hvalue : s.verticalScrollBar.value = v)
    (hph : 1 ≤ pageHeight)
    (hfuel : breakCount pageHeight (s.height - 1) (pageHeight - Int.tmod v pageHeight) < fuel) :
    paintPageNumbersCalls fuel s
      = some ((if pageHeight - Int.tmod v pageHeight - s.m_pageMetrics.pxPageMargins.top ≥ 0 then
            [(⟨⟨s.m_pageMetrics.pxPageMargins.left - s.horizontalScrollBar.value,
                pageHeight - Int.tmod v pageHeight - pageHeight,
                s.m_pageMetrics.pxPageSize.width - s.m_pageMetrics.pxPageMargins.left
                  - s.m_pageMetrics.pxPageMargins.right,
                s.m_pageMetrics.pxPageMargins.top⟩, true,
                qrealToInt ((v : ℚ) / (pageHeight : ℚ) + 1)⟩ : PageNumberCall)]
          else [])
        ++ (List.range (breakCount pageHeight (s.height - 1)
              (pageHeight - Int.tmod v pageHeight))).flatMap
            fun (k : Nat) =>
              [(⟨⟨s.m_pageMetrics.pxPageMargins.left - s.horizontalScrollBar.value,
                  pageHeight - Int.tmod v pageHeight + k * pageHeight
                    - s.m_pageMetrics.pxPageMargins.bottom,
                  s.m_pageMetrics.pxPageSize.width - s.m_pageMetrics.pxPageMargins.left
                    - s.m_pageMetrics.pxPageMargins.right,
                  s.m_pageMetrics.pxPageMargins.bottom⟩, false,
                  qrealToInt ((v : ℚ) / (pageHeight : ℚ) + 1) + k⟩ : PageNumberCall),
               ⟨⟨s.m_pageMetrics.pxPageMargins.left - s.horizontalScrollBar.value,
                  pageHeight - Int.tmod v pageHeight + k * pageHeight,
                  s.m_pageMetrics.pxPageSize.width - s.m_pageMetrics.pxPageMargins.left
                    - s.m_pageMetrics.pxPageMargins.right,
                  s.m_pageMetrics.pxPageMargins.top⟩, true,
                  qrealToInt ((v : ℚ) / (pageHeight : ℚ) + 1) + k + 1⟩]) := by
  have hne : pageHeight ≠ 0 := by omega
  have hloop := paintPageNumbersLoop_eq s s.m_pageMetrics.pxPageSize s.m_pageMetrics.pxPageMargins
    (s.m_pageMetrics.pxPageMargins.left - s.horizontalScrollBar.value)
    (s.m_pageMetrics.pxPageSize.width - s.m_pageMetrics.pxPageMargins.left
      - s.m_pageMetrics.pxPageMargins.right) (by rw [hheight]; exact hph) fuel
    (pageHeight - Int.tmod v pageHeight) (qrealToInt ((v : ℚ) / (pageHeight : ℚ) + 1))
    (by rw [hheight]; exact hfuel)
  rw [hheight] at hloop
  simp only [paintPageNumbersCalls, hmode, hmargins, hshow, Bool.not_false, Bool.and_self,
    if_true, hheight, hvalue, hne, if_false, hloop, Option.map_some']

theorem paintPageNumbers_bottom_of_value (fuel : Nat) (s : PagesTextEdit) (pageHeight v : Int)
    (hmode : s.m_usePageMode = true)
    (hmargins : s.m_pageMetrics.pxPageMargins.isNull = false)
    (hshow : s.m_showPageNumbers = true)
    (hbottom : testFlag s.m_pageNumbersAlignment AlignBottom = true)
    (htop : testFlag s.m_pageNumbersAlignment AlignTop = false)
    (hheight : s.m_pageMetrics.pxPageSize.height = pageHeight)
    (hvalue : s.verticalScrollBar.value = v)
    (hph : 1 ≤ pageHeight)
    (hfuel : breakCount pageHeight (s.height - 1) (pageHeight - Int.tmod v pageHeight) < fuel) :
    paintPageNumbers fuel s
      = some ((List.range (breakCount pageHeight (s.height - 1)
            (pageHeight - Int.tmod v pageHeight))).map fun (k : Nat) =>
          DrawCmd.text (bottomMarginRect s (pageHeight - Int.tmod v pageHeight + k * pageHeight))
            (AlignVCenter ||| (s.m_pageNumbersAlignment ^^^ AlignBottom))
            (qrealToInt ((v : ℚ) / (pageHeight : ℚ) + 1) + k)) := by
  rw [paintPageNumbers, paintPageNumbersCalls_of_value fuel s pageHeight v hmode hmargins hshow
    hheight hvalue hph hfuel]
  simp only [Option.map_some', List.map_append, List.flatten_append]
  rw [flatten_map_pairs (fun c : PageNumberCall => paintPageNumber s c.rect c.isHeader c.number)]
  have hfirst : ∀ l : List PageNumberCall, (∀ c ∈ l, c.isHeader = true) →
      (l.map fun c => paintPageNumber s c.rect c.isHeader c.number).flatten = [] := by
    intro l hl
    induction l with
    | nil => rfl
    | cons c l ih =>
      have hc := hl c (List.mem_cons_self _ _)
      rw [List.map_cons, List.flatten_cons, ih fun d hd => hl d (List.mem_cons_of_mem _ hd)]
      simp only [paintPageNumber, hc, if_true, htop, Bool.false_eq_true, if_false,
        List.append_nil]
  rw [hfirst _ (by
    intro c hc
    split_ifs at hc
    · rw [List.mem_singleton] at hc; rw [hc]
    · exact absurd hc (List.not_mem_nil _))]
  simp only [paintPageNumber, Bool.false_eq_true, if_false, hbottom, if_true, htop,
    List.append_nil, List.nil_append]
  rw [flatMap_singleton_eq_map]
  rfl

theorem afterRangeChange_shortDocumentWidget :
    (afterRangeChange shortDocumentWidget).m_usePageMode = true
      ∧ (afterRangeChange shortDocumentWidget).m_pageMetrics.pxPageMargins.isNull = false
      ∧ (afterRangeChange shortDocumentWidget).m_showPageNumbers = true
      ∧ testFlag (afterRangeChange shortDocumentWidget).m_pageNumbersAlignment AlignBottom = true
      ∧ testFlag (afterRangeChange shortDocumentWidget).m_pageNumbersAlignment AlignTop = false
      ∧ (afterRangeChange shortDocumentWidget).m_pageMetrics.pxPageSize.height = 1000
      ∧ (afterRangeChange shortDocumentWidget).verticalScrollBar.value = -500
      ∧ (afterRangeChange shortDocumentWidget).height = 2500 := by
  decide

theorem paintPagesView_returns (fuel : Nat) (s : PagesTextEdit)
    (hph : s.m_usePageMode = true → 1 ≤ s.m_pageMetrics.pxPageSize.height)
    (hfuel : breakCount s.m_pageMetrics.pxPageSize.height s.height 1 < fuel) :
    ∃ drawn, paintPagesView fuel s = some drawn := by
  unfold paintPagesView
  by_cases hmode : s.m_usePageMode = true
  · have h1 := hph hmode
    have hne : s.m_pageMetrics.pxPageSize.height ≠ 0 := by omega
    have hcur := one_le_first_curHeight s.m_pageMetrics.pxPageSize.height
      s.verticalScrollBar.value h1
    have hb := breakCount_le s.m_pageMetrics.pxPageSize.height s.height s.height _ 1 h1
      (le_refl _) hcur
    simp only [hmode, if_true, hne, if_false]
    rw [paintPagesViewLoop_eq s _ _ _ h1 fuel _ (by omega)]
    exact ⟨_, rfl⟩
  · simp only [hmode, if_false]
    exact ⟨_, rfl⟩

theorem paintPageNumbers_returns (fuel : Nat) (s : PagesTextEdit)
    (hph : s.m_usePageMode = true → 1 ≤ s.m_pageMetrics.pxPageSize.height)
    (hfuel : breakCount s.m_pageMetrics.pxPageSize.height s.height 1 < fuel) :
    ∃ drawn, paintPageNumbers fuel s = some drawn := by
  suffices h : ∃ calls, paintPageNumbersCalls fuel s = some calls by
    obtain ⟨calls, hc⟩ := h
    rw [paintPageNumbers, hc]
    exact ⟨_, rfl⟩
  unfold paintPageNumbersCalls
  by_cases hg : (s.m_usePageMode && !s.m_pageMetrics.pxPageMargins.isNull
      && s.m_showPageNumbers) = true
  · have hmode : s.m_usePageMode = true := by
      simp only [Bool.and_eq_true] at hg
      exact hg.1.1
    have h1 := hph hmode
    have hne : s.m_pageMetrics.pxPageSize.height ≠ 0 := by omega
    have hcur := one_le_first_curHeight s.m_pageMetrics.pxPageSize.height
      s.verticalScrollBar.value h1
    have hb := breakCount_le s.m_pageMetrics.pxPageSize.height (s.height - 1) s.height _ 1 h1
      (by omega) hcur
    rw [if_pos hg]
    simp only [hne, if_false]
    rw [paintPageNumbersLoop_eq s _ _ _ _ h1 fuel _ _ (by omega)]
    exact ⟨_, rfl⟩
  · rw [if_neg hg]
    exact ⟨_, rfl⟩

/-! ## Document geometry and the paint event -/

theorem aboutUpdateDocumentGeometry_mirror (s : PagesTextEdit) (hmode : s.m_usePageMode = true) :
    (aboutUpdateDocumentGeometry s).document.pageSize = s.m_pageMetrics.pxPageSize
      ∧ (aboutUpdateDocumentGeometry s).document.rootFrameMargins
          = s.m_pageMetrics.pxPageMargins := by
  simp only [aboutUpdateDocumentGeometry, hmode, if_true, QTextDocument.setPageSize,
    QTextDocument.setDocumentMargin, QTextDocument.setFrameFormat]
  constructor
  · split_ifs <;> first | rfl | simp_all
  · split_ifs with h1 h2 h3 h3 h2 h3 h3
    all_goals first
      | rfl
      | (push_neg at h3
         obtain ⟨a, b, c, d⟩ := h3
         cases hm : s.m_pageMetrics.pxPageMargins
         cases hd : s.document.rootFrameMargins
         simp_all)

theorem updateViewportMargins_mirror (s : PagesTextEdit) (hmode : s.m_usePageMode = true) :
    (updateViewportMargins s).document.pageSize = s.m_pageMetrics.pxPageSize
      ∧ (updateViewportMargins s).document.rootFrameMargins = s.m_pageMetrics.pxPageMargins := by
  unfold updateViewportMargins
  exact aboutUpdateDocumentGeometry_mirror (setViewportMargins s _) hmode

theorem afterRangeChange_mirror (s : PagesTextEdit) (hmode : s.m_usePageMode = true) :
    (afterRangeChange s).m_usePageMode = true
      ∧ (afterRangeChange s).m_pageMetrics = s.m_pageMetrics
      ∧ (afterRangeChange s).document.pageSize = s.m_pageMetrics.pxPageSize
      ∧ (afterRangeChange s).document.rootFrameMargins = s.m_pageMetrics.pxPageMargins := by
  obtain ⟨h1, -, -, -, h5, -⟩ := updateViewportMargins_frame
    { s with verticalScrollBar := s.verticalScrollBar.setMaximum (maximumValue s) }
  obtain ⟨m1, m2⟩ := updateViewportMargins_mirror
    { s with verticalScrollBar := s.verticalScrollBar.setMaximum (maximumValue s) } hmode
  exact ⟨h1.trans hmode, h5, m1, m2⟩

theorem paintEvent_returns (fuel : Nat) (s : PagesTextEdit)
    (hph : s.m_usePageMode = true → 1 ≤ s.m_pageMetrics.pxPageSize.height)
    (hfuel2 : 2 ≤ fuel)
    (hfuel : breakCount s.m_pageMetrics.pxPageSize.height s.height 1 < fuel) :
    ∃ drawn, paintEvent fuel s
      = some ((if s.verticalScrollBar.maximum ≠ maximumValue s then afterRangeChange s else s),
          drawn) := by
  have hframe : (if s.verticalScrollBar.maximum ≠ maximumValue s then afterRangeChange s
        else s).m_usePageMode = s.m_usePageMode
      ∧ (if s.verticalScrollBar.maximum ≠ maximumValue s then afterRangeChange s
        else s).m_pageMetrics = s.m_pageMetrics
      ∧ (if s.verticalScrollBar.maximum ≠ maximumValue s then afterRangeChange s
        else s).height = s.height := by
    split_ifs
    · obtain ⟨h1, -, -, -, h5, -, h7, -⟩ := updateViewportMargins_frame
        { s with verticalScrollBar := s.verticalScrollBar.setMaximum (maximumValue s) }
      exact ⟨h1, h5, h7⟩
    · exact ⟨rfl, rfl, rfl⟩
  obtain ⟨e1, e2, e3⟩ := hframe
  obtain ⟨pages, hpages⟩ := paintPagesView_returns fuel
    (if s.verticalScrollBar.maximum ≠ maximumValue s then afterRangeChange s else s)
    (by rw [e1, e2]; exact hph) (by rw [e2, e3]; exact hfuel)
  obtain ⟨numbers, hnumbers⟩ := paintPageNumbers_returns fuel
    (if s.verticalScrollBar.maximum ≠ maximumValue s then afterRangeChange s else s)
    (by rw [e1, e2]; exact hph) (by rw [e2, e3]; exact hfuel)
  refine ⟨pages ++ numbers, ?_⟩
  rw [paintEvent, updateVerticalScrollRange_eq fuel s hfuel2]
  simp only [hpages, hnumbers]

theorem mmToPx_screen96_values :
    PageMetrics.mmToPx screen96 20 true = 76 ∧ PageMetrics.mmToPx screen96 20 false = 76
      ∧ PageMetrics.mmToPx screen96 210 true = 794
      ∧ PageMetrics.mmToPx screen96 297 false = 1123 := by
  refine ⟨?_, ?_, ?_, ?_⟩ <;>
    (simp only [PageMetrics.mmToPx, screen96, if_true, Bool.false_eq_true, if_false]
     rw [Int.floor_eq_iff]
     constructor <;> norm_num)

theorem setPageMargins_syncedWidget :
    setPageMargins screen96 syncedWidget ⟨20, 20, 20, 20⟩
      = { syncedWidget with
          m_pageMetrics :=
            { m_pageFormat := 0
              m_mmPageSize := ⟨210, 297⟩
              m_mmPageMargins := ⟨20, 20, 20, 20⟩
              m_pxPageSize := ⟨794, 1123⟩
              m_pxPageMargins := ⟨76, 76, 76, 76⟩ }
          repaintRequests := 1 } := by
  obtain ⟨h1, h2, h3, h4⟩ := mmToPx_screen96_values
  have hfmt : syncedWidget.m_pageMetrics.pageFormat = 0 := rfl
  have hsz : screen96.pageSizeMm 0 = ⟨210, 297⟩ := rfl
  simp only [setPageMargins, repaint, PageMetrics.update, hfmt, hsz, h1, h2, h3, h4]
  rfl

/-! ## Scroll range in page mode -/

/-- C1: in page mode `updateVerticalScrollRange` returns (with fuel for the
nested call), and afterwards the maximum of the vertical scroll bar is
`pageHeight * pageCount - viewportHeight`, whatever its sign; the scroll bar was
handed exactly this value when its maximum was different and nothing otherwise;
for page height 800, page count 5 and viewport height 600 the maximum is
3400. -/
theorem C1_paged_scroll_maximum (fuel : Nat) (s : PagesTextEdit)
    (hmode : s.m_usePageMode = true) (hfuel : 2 ≤ fuel) :
    ∃ s', updateVerticalScrollRange fuel s = some s'
      ∧ s'.verticalScrollBar.maximum
          = s.m_pageMetrics.pxPageSize.height * s.document.pageCount - s.viewportHeight
      ∧ s'.verticalScrollBar.setMaximumCalls
          = (if s.verticalScrollBar.maximum
                = s.m_pageMetrics.pxPageSize.height * s.document.pageCount - s.viewportHeight
             then s.verticalScrollBar.setMaximumCalls
             else s.verticalScrollBar.setMaximumCalls
               ++ [s.m_pageMetrics.pxPageSize.height * s.document.pageCount - s.viewportHeight])
      ∧ (s.m_pageMetrics.pxPageSize.height = 800 → s.document.pageCount = 5 →
          s.viewportHeight = 600 → s'.verticalScrollBar.maximum = 3400) := by
  obtain ⟨s', h1, h2, h3⟩ := updateVerticalScrollRange_result fuel s hfuel
  rw [maximumValue_paged s hmode] at h2 h3
  refine ⟨s', h1, h2, h3, ?_⟩
  intro e1 e2 e3
  rw [h2, e1, e2, e3]
  rfl

/-- Witness for C1: a widget in page mode with five pages of height 800 in a
viewport of height 600. -/
theorem C1_paged_scroll_maximum_witness :
    (pagedWidget ⟨600, 800⟩ ⟨0, 0, 0, 0⟩ 5 600 0).m_usePageMode = true ∧ 2 ≤ 2
      ∧ ∃ s', updateVerticalScrollRange 2 (pagedWidget ⟨600, 800⟩ ⟨0, 0, 0, 0⟩ 5 600 0) = some s'
          ∧ s'.verticalScrollBar.maximum = 3400
          ∧ s'.verticalScrollBar.setMaximumCalls = [3400] := by
  obtain ⟨s', h1, _, h3, h4⟩ :=
    C1_paged_scroll_maximum 2 (pagedWidget ⟨600, 800⟩ ⟨0, 0, 0, 0⟩ 5 600 0) rfl (le_refl 2)
  exact ⟨rfl, le_refl 2, s', h1, h4 rfl rfl rfl, by rw [h3]; decide⟩

/-! ## Page breaks -/

/-- C2: in page mode with page height at least 1 and scroll value `v` at least
0, `paintPagesView` returns (given fuel for the loop) the optional top border,
then the five lines of one page break for each running height
`pageHeight - v mod pageHeight + k * pageHeight`, `k = 0, ..., n - 1`, in this
order, then the closing side borders.  The running heights are exactly the `y`
with `1 ≤ y ≤ height` and `v + y` divisible by the page height, and the page
break background is drawn at exactly these `y`.  For page height 1000, height
1500 and `v = 0` there is one page break, at 1000, the loop ends with the
running height 2000 and the closing side borders go from 1000 to 1500. -/
theorem C2_page_break_bands (fuel : Nat) (s : PagesTextEdit) (pageHeight v : Int)
    (hmode : s.m_usePageMode = true)
    (hheight : s.m_pageMetrics.pxPageSize.height = pageHeight)
    (hvalue : s.verticalScrollBar.value = v)
    (hph : 1 ≤ pageHeight) (hv : 0 ≤ v)
    (hfuel : breakCount pageHeight s.height (pageHeight - v % pageHeight) < fuel) :
    ∃ (x : Int) (n : Nat) (drawn : List DrawCmd),
      x = s.m_pageMetrics.pxPageSize.width + (if Int.tmod s.width 2 = 0 then 2 else 1)
      ∧ n = breakCount pageHeight s.height (pageHeight - v % pageHeight)
      ∧ paintPagesView fuel s = some drawn
      ∧ paintPagesViewLoop s pageHeight x s.horizontalScrollBar.value fuel
          (pageHeight - v % pageHeight)
        = some (pageHeight - v % pageHeight + n * pageHeight,
            (List.range n).flatMap fun (k : Nat) =>
              pageBreakLines s pageHeight x s.horizontalScrollBar.value
                (pageHeight - v % pageHeight + k * pageHeight))
      ∧ drawn = topBorderLine pageHeight x (pageHeight - v % pageHeight)
          ++ ((List.range n).flatMap fun (k : Nat) =>
              pageBreakLines s pageHeight x s.horizontalScrollBar.value
                (pageHeight - v % pageHeight + k * pageHeight))
          ++ closingLines s pageHeight x s.horizontalScrollBar.value
              (pageHeight - v % pageHeight + n * pageHeight)
      ∧ (∀ y : Int, (∃ k : Nat, k < n ∧ y = pageHeight - v % pageHeight + k * pageHeight)
          ↔ (1 ≤ y ∧ y ≤ s.height ∧ pageHeight ∣ v + y))
      ∧ (∀ y : Int, DrawCmd.line Pen.spacePen 0 (y - 4) s.width (y - 4) ∈ drawn
          ↔ (1 ≤ y ∧ y ≤ s.height ∧ pageHeight ∣ v + y))
      ∧ (pageHeight = 1000 → s.height = 1500 → v = 0 →
          n = 1
          ∧ paintPagesViewLoop s pageHeight x s.horizontalScrollBar.value fuel 1000
            = some (2000, pageBreakLines s 1000 x s.horizontalScrollBar.value 1000)
          ∧ closingLines s pageHeight x s.horizontalScrollBar.value 2000
            = [DrawCmd.line Pen.borderPen (0 - s.horizontalScrollBar.value) 1000
                (0 - s.horizontalScrollBar.value) 1500,
               DrawCmd.line Pen.borderPen (x - s.horizontalScrollBar.value) 1000
                (x - s.horizontalScrollBar.value) 1500]) := by
  have hloop := paintPagesViewLoop_eq s pageHeight
    (s.m_pageMetrics.pxPageSize.width + (if Int.tmod s.width 2 = 0 then 2 else 1))
    s.horizontalScrollBar.value hph fuel (pageHeight - v % pageHeight) hfuel
  have hne : pageHeight ≠ 0 := by omega
  have htmod : Int.tmod v pageHeight = v % pageHeight := Int.tmod_eq_emod hv (by omega)
  have hpos := break_positions_iff pageHeight s.height v hph
  refine ⟨_, _, _, rfl, rfl, ?_, hloop, rfl, hpos, ?_, ?_⟩
  · simp only [paintPagesView, hmode, if_true, hheight, hvalue, hne, if_false, htmod, hloop,
      Option.map_some']
  · intro y
    rw [← hpos y]
    simp only [topBorderLine, closingLines, pageBreakLines, List.mem_append, List.mem_flatMap,
      List.mem_range]
    constructor
    · rintro ((h | ⟨k, hk, h⟩) | h)
      · split_ifs at h <;> simp at h
      · refine ⟨k, hk, ?_⟩
        simp at h
        omega
      · split_ifs at h <;> simp at h
    · rintro ⟨k, hk, rfl⟩
      exact Or.inl (Or.inr ⟨k, hk, by simp⟩)
  · rintro rfl h2 rfl
    have hn : breakCount 1000 s.height (1000 - 0 % 1000) = 1 := by
      rw [h2]; decide
    rw [hn] at hloop
    refine ⟨hn, ?_, ?_⟩
    · simpa using hloop
    · simp [closingLines, h2]

/-- Witness for C2: pages of height 1000 in a widget of height 1500 scrolled to
the top: the top border at 0, one page break at 1000 and the closing side
borders from 1000 to 1500. -/
theorem C2_page_break_bands_witness :
    (pagedWidget ⟨794, 1000⟩ ⟨0, 0, 0, 0⟩ 3 1500 0).m_usePageMode = true
      ∧ (1 : Int) ≤ 1000 ∧ (0 : Int) ≤ 0
      ∧ breakCount 1000 (pagedWidget ⟨794, 1000⟩ ⟨0, 0, 0, 0⟩ 3 1500 0).height
          (1000 - 0 % 1000) < 2
      ∧ paintPagesView 2 (pagedWidget ⟨794, 1000⟩ ⟨0, 0, 0, 0⟩ 3 1500 0)
        = some [DrawCmd.line Pen.borderPen 0 0 796 0,
            DrawCmd.line Pen.spacePen 0 996 1000 996,
            DrawCmd.line Pen.borderPen 0 992 796 992,
            DrawCmd.line Pen.borderPen 0 1000 796 1000,
            DrawCmd.line Pen.borderPen 0 0 0 992,
            DrawCmd.line Pen.borderPen 796 0 796 992,
            DrawCmd.line Pen.borderPen 0 1000 0 1500,
            DrawCmd.line Pen.borderPen 796 1000 796 1500] := by
  obtain ⟨x, n, drawn, hx, hn, hpaint, -, hdrawn, -⟩ :=
    C2_page_break_bands 2 (pagedWidget ⟨794, 1000⟩ ⟨0, 0, 0, 0⟩ 3 1500 0) 1000 0 rfl rfl rfl
      (by decide) (by decide) (by decide)
  refine ⟨rfl, by decide, by decide, by decide, ?_⟩
  rw [hpaint, hdrawn, hn, hx]
  decide

/-! ## Page numbers -/

/-- C3: in page mode with margins set, numbers shown, page height at least 1
and scroll value `v` at least 0, `paintPageNumbers` calls `paintPageNumber` with
the number `v / pageHeight + 1` (rounded down) for the first visible page and
with a number one larger in each pass of the loop.  Every number `n` issued for a
bottom margin band that ends at `y` satisfies `n * pageHeight = v + y`, and every
number `m` issued for a top margin band that starts at `y` satisfies
`(m - 1) * pageHeight = v + y`. -/
theorem C3_page_numbering (fuel : Nat) (s : PagesTextEdit) (pageHeight v : Int)
    (hmode : s.m_usePageMode = true)
    (hmargins : s.m_pageMetrics.pxPageMargins.isNull = false)
    (hshow : s.m_showPageNumbers = true)
    (hheight : s.m_pageMetrics.pxPageSize.height = pageHeight)
    (hvalue : s.verticalScrollBar.value = v)
    (hph : 1 ≤ pageHeight) (hv : 0 ≤ v)
    (hfuel : breakCount pageHeight (s.height - 1) (pageHeight - v % pageHeight) < fuel) :
    ∃ (left marginWidth : Int) (n : Nat) (calls : List PageNumberCall),
      left = s.m_pageMetrics.pxPageMargins.left - s.horizontalScrollBar.value
      ∧ marginWidth = s.m_pageMetrics.pxPageSize.width - s.m_pageMetrics.pxPageMargins.left
          - s.m_pageMetrics.pxPageMargins.right
      ∧ n = breakCount pageHeight (s.height - 1) (pageHeight - v % pageHeight)
      ∧ paintPageNumbersCalls fuel s = some calls
      ∧ paintPageNumbers fuel s
          = some (calls.map fun c => paintPageNumber s c.rect c.isHeader c.number).flatten
      ∧ calls
          = (if pageHeight - v % pageHeight - s.m_pageMetrics.pxPageMargins.top ≥ 0 then
              [(⟨⟨left, pageHeight - v % pageHeight - pageHeight, marginWidth,
                  s.m_pageMetrics.pxPageMargins.top⟩, true, v / pageHeight + 1⟩ : PageNumberCall)]
            else [])
          ++ ((List.range n).flatMap fun (k : Nat) =>
              [(⟨⟨left, pageHeight - v % pageHeight + k * pageHeight
                    - s.m_pageMetrics.pxPageMargins.bottom, marginWidth,
                  s.m_pageMetrics.pxPageMargins.bottom⟩, false, v / pageHeight + 1 + k⟩
                  : PageNumberCall),
               ⟨⟨left, pageHeight - v % pageHeight + k * pageHeight, marginWidth,
                  s.m_pageMetrics.pxPageMargins.top⟩, true, v / pageHeight + 1 + k + 1⟩])
      ∧ (∀ c ∈ calls, c.isHeader = false →
          c.number * pageHeight = v + (c.rect.y + c.rect.height))
      ∧ (∀ c ∈ calls, c.isHeader = true → (c.number - 1) * pageHeight = v + c.rect.y) := by
  have hcalls := paintPageNumbersCalls_eq fuel s pageHeight v hmode hmargins hshow hheight hvalue
    hph hv hfuel
  refine ⟨_, _, _, _, rfl, rfl, rfl, hcalls, ?_, rfl, ?_, ?_⟩
  · rw [paintPageNumbers, hcalls]; rfl
  · intro c hc hb
    rcases List.mem_append.mp hc with h | h
    · split_ifs at h
      · rw [List.mem_singleton] at h; subst h; exact absurd hb (by simp)
      · exact absurd h (List.not_mem_nil _)
    · obtain ⟨k, -, hk⟩ := List.mem_flatMap.mp h
      simp only [List.mem_cons, List.mem_singleton, List.not_mem_nil, or_false] at hk
      rcases hk with rfl | rfl
      · have := pageNumber_mul pageHeight v k
        simp only
        linarith
      · exact absurd hb (by simp)
  · intro c hc hb
    rcases List.mem_append.mp hc with h | h
    · split_ifs at h
      · rw [List.mem_singleton] at h; subst h
        have := pageNumber_mul pageHeight v (-1)
        simp only
        linarith
      · exact absurd h (List.not_mem_nil _)
    · obtain ⟨k, -, hk⟩ := List.mem_flatMap.mp h
      simp only [List.mem_cons, List.mem_singleton, List.not_mem_nil, or_false] at hk
      rcases hk with rfl | rfl
      · exact absurd hb (by simp)
      · have := pageNumber_mul pageHeight v k
        simp only
        linarith

/-- Witness for C3: pages of height 1000 with margins of 50 in a widget of
height 1500 scrolled to the top: number 1 for the top band of the first page,
number 1 for its bottom band ending at 1000, number 2 for the top band starting
at 1000. -/
theorem C3_page_numbering_witness :
    (pagedWidget ⟨794, 1000⟩ ⟨50, 50, 50, 50⟩ 3 1500 0).m_usePageMode = true
      ∧ (pagedWidget ⟨794, 1000⟩ ⟨50, 50, 50, 50⟩ 3 1500 0).m_pageMetrics.pxPageMargins.isNull
          = false
      ∧ (pagedWidget ⟨794, 1000⟩ ⟨50, 50, 50, 50⟩ 3 1500 0).m_showPageNumbers = true
      ∧ (1 : Int) ≤ 1000 ∧ (0 : Int) ≤ 0
      ∧ breakCount 1000 ((pagedWidget ⟨794, 1000⟩ ⟨50, 50, 50, 50⟩ 3 1500 0).height - 1)
          (1000 - 0 % 1000) < 2
      ∧ paintPageNumbersCalls 2 (pagedWidget ⟨794, 1000⟩ ⟨50, 50, 50, 50⟩ 3 1500 0)
        = some [⟨⟨50, 0, 694, 50⟩, true, 1⟩, ⟨⟨50, 950, 694, 50⟩, false, 1⟩,
            ⟨⟨50, 1000, 694, 50⟩, true, 2⟩] := by
  obtain ⟨left, marginWidth, n, calls, hl, hw, hn, hcalls, -, hlist, -⟩ :=
    C3_page_numbering 2 (pagedWidget ⟨794, 1000⟩ ⟨50, 50, 50, 50⟩ 3 1500 0) 1000 0 rfl rfl rfl
      rfl rfl (by decide) (by decide) (by decide)
  refine ⟨rfl, rfl, rfl, by decide, by decide, by decide, ?_⟩
  rw [hcalls, hlist, hn, hl, hw]
  decide

/-- C4 as stated fails.  First, pages of height 1000 in a widget of height 1500
scrolled to the top, numbers at the bottom: pages 1 and 2 are visible (and page
3 is not), but only one number is drawn, the 1 in the bottom band of page 1; the
loop stops at the running height 2000 without a call for the bottom band of
page 2.  Second, a negative scroll value: the paint event of the short document
widget (two pages of height 1000 in a viewport of height 2500) hands the maximum
-500 to the scroll bar, which lowers its value to -500.  Pages 1 and 2 then are
visible, with lower edges at 1500 and 2500, and the only number drawn is a 0, in
the band that ends at 1500. -/
theorem C4_two_visible_pages_one_number :
    bottomNumbersWidget.m_usePageMode = true
      ∧ bottomNumbersWidget.m_pageMetrics.pxPageMargins.isNull = false
      ∧ bottomNumbersWidget.m_showPageNumbers = true
      ∧ testFlag bottomNumbersWidget.m_pageNumbersAlignment AlignBottom = true
      ∧ testFlag bottomNumbersWidget.m_pageNumbersAlignment AlignTop = false
      ∧ ((1 - 1) * 1000 - 0 < bottomNumbersWidget.height ∧ (0 : Int) < 1 * 1000 - 0)
      ∧ ((2 - 1) * 1000 - 0 < bottomNumbersWidget.height ∧ (0 : Int) < 2 * 1000 - 0)
      ∧ ¬ ((3 - 1) * 1000 - 0 < bottomNumbersWidget.height)
      ∧ paintPageNumbers 2 bottomNumbersWidget
          = some [DrawCmd.text ⟨50, 950, 694, 50⟩ (AlignVCenter ||| AlignHCenter) 1]
      ∧ (¬ ∃ drawn, paintPageNumbers 2 bottomNumbersWidget = some drawn ∧ drawn.length = 2)
      ∧ (∃ drawn,
          paintEvent 4 shortDocumentWidget = some (afterRangeChange shortDocumentWidget, drawn))
      ∧ (afterRangeChange shortDocumentWidget).m_usePageMode = true
      ∧ (afterRangeChange shortDocumentWidget).m_pageMetrics.pxPageMargins.isNull = false
      ∧ (afterRangeChange shortDocumentWidget).m_showPageNumbers = true
      ∧ testFlag (afterRangeChange shortDocumentWidget).m_pageNumbersAlignment AlignBottom = true
      ∧ testFlag (afterRangeChange shortDocumentWidget).m_pageNumbersAlignment AlignTop = false
      ∧ (afterRangeChange shortDocumentWidget).m_pageMetrics.pxPageSize.height = 1000
      ∧ (afterRangeChange shortDocumentWidget).verticalScrollBar.value = -500
      ∧ (afterRangeChange shortDocumentWidget).height = 2500
      ∧ ((1 - 1) * 1000 - (-500) < (afterRangeChange shortDocumentWidget).height
          ∧ (0 : Int) < 1 * 1000 - (-500))
      ∧ ((2 - 1) * 1000 - (-500) < (afterRangeChange shortDocumentWidget).height
          ∧ (0 : Int) < 2 * 1000 - (-500))
      ∧ paintPageNumbers 4 (afterRangeChange shortDocumentWidget)
          = some [DrawCmd.text ⟨50, 1450, 694, 50⟩ (AlignVCenter ||| AlignHCenter) 0] := by
  have h := paintPageNumbers_bottom 2 bottomNumbersWidget 1000 0 rfl rfl rfl (by decide)
    (by decide) rfl rfl (by decide) (by decide) (by decide)
  have h2 : paintPageNumbers 2 bottomNumbersWidget
      = some [DrawCmd.text ⟨50, 950, 694, 50⟩ (AlignVCenter ||| AlignHCenter) 1] := by
    rw [h]; decide
  obtain ⟨a1, a2, a3, a4, a5, a6, a7, a8⟩ := afterRangeChange_shortDocumentWidget
  have hq : qrealToInt (((-500 : Int) : ℚ) / ((1000 : Int) : ℚ) + 1) = 0 := by
    norm_num [qrealToInt]
    rfl
  have h3 := paintPageNumbers_bottom_of_value 4 (afterRangeChange shortDocumentWidget) 1000 (-500)
    a1 a2 a3 a4 a5 a6 a7 (by decide) (by rw [a8]; decide)
  rw [hq] at h3
  refine ⟨rfl, rfl, rfl, by decide, by decide, by decide, by decide, by decide, h2, ?_, ?_,
    a1, a2, a3, a4, a5, a6, a7, a8, by rw [a8]; decide, by rw [a8]; decide, ?_⟩
  · rintro ⟨drawn, hd, hlen⟩
    rw [h2] at hd
    cases hd
    exact absurd hlen (by decide)
  · obtain ⟨drawn, hd⟩ := paintEvent_returns 4 shortDocumentWidget (fun _ => by decide)
      (by decide) (by decide)
    rw [if_pos (by decide)] at hd
    exact ⟨drawn, hd⟩
  · rw [h3]
    decide

/-- C4 as amended: with numbers at the bottom only (`AlignBottom` set,
`AlignTop` not set), page mode on, margins set and numbers shown,
`paintPageNumbers` returns and, for every scroll value `v`, draws nothing for
any top margin band: what it draws is one number for each running height
`y = pageHeight - v rem pageHeight + k * pageHeight` below the height of the
widget, in the bottom band that ends at `y`, and every such `y` is on the
screen (`0 < y < height`).  For a scroll value `v` of at least 0 it draws
exactly one number for each page whose lower edge `page * pageHeight - v` is on
the screen above the bottom of the widget (`0 < page * pageHeight - v < height`),
the number of the page in the bottom band of that page, in increasing order, and
no other number.  For page height 1000 and `v = 0` one number is drawn when the
height is 1500 and two when it is 2500. -/
theorem C4_bottom_numbers (fuel : Nat) (s : PagesTextEdit) (pageHeight v : Int)
    (hmode : s.m_usePageMode = true)
    (hmargins : s.m_pageMetrics.pxPageMargins.isNull = false)
    (hshow : s.m_showPageNumbers = true)
    (hbottom : testFlag s.m_pageNumbersAlignment AlignBottom = true)
    (htop : testFlag s.m_pageNumbersAlignment AlignTop = false)
    (hheight : s.m_pageMetrics.pxPageSize.height = pageHeight)
    (hvalue : s.verticalScrollBar.value = v)
    (hph : 1 ≤ pageHeight)
    (hfuel : breakCount pageHeight (s.height - 1) (pageHeight - Int.tmod v pageHeight) < fuel) :
    ∃ (n : Nat) (flags : Nat) (calls : List PageNumberCall) (drawn : List DrawCmd),
      n = breakCount pageHeight (s.height - 1) (pageHeight - Int.tmod v pageHeight)
      ∧ flags = AlignVCenter ||| (s.m_pageNumbersAlignment ^^^ AlignBottom)
      ∧ paintPageNumbersCalls fuel s = some calls
      ∧ paintPageNumbers fuel s = some drawn
      ∧ drawn = (List.range n).map (fun (k : Nat) =>
          DrawCmd.text (bottomMarginRect s (pageHeight - Int.tmod v pageHeight + k * pageHeight))
            flags (qrealToInt ((v : ℚ) / (pageHeight : ℚ) + 1) + k))
      ∧ drawn.length = n
      ∧ drawn.Nodup
      ∧ (∀ c ∈ calls, c.isHeader = true → paintPageNumber s c.rect c.isHeader c.number = [])
      ∧ (∀ cmd ∈ drawn, ∃ (y number : Int),
          cmd = DrawCmd.text (bottomMarginRect s y) flags number ∧ 0 < y ∧ y < s.height)
      ∧ (0 ≤ v →
          (∀ page : Int,
            DrawCmd.text (bottomMarginRect s (page * pageHeight - v)) flags page ∈ drawn
              ↔ (0 < page * pageHeight - v ∧ page * pageHeight - v < s.height))
          ∧ (∀ rect fl number, DrawCmd.text rect fl number ∈ drawn →
              rect = bottomMarginRect s (number * pageHeight - v) ∧ fl = flags
                ∧ 0 < number * pageHeight - v ∧ number * pageHeight - v < s.height)
          ∧ drawn = (List.range n).map (fun (k : Nat) =>
              DrawCmd.text (bottomMarginRect s ((v / pageHeight + 1 + k) * pageHeight - v)) flags
                (v / pageHeight + 1 + k)))
      ∧ (pageHeight = 1000 → s.height = 1500 → v = 0 → drawn.length = 1)
      ∧ (pageHeight = 1000 → s.height = 2500 → v = 0 → drawn.length = 2) := by
  have hcalls := paintPageNumbersCalls_of_value fuel s pageHeight v hmode hmargins hshow hheight
    hvalue hph hfuel
  have hdrawn := paintPageNumbers_bottom_of_value fuel s pageHeight v hmode hmargins hshow hbottom
    htop hheight hvalue hph hfuel
  have hpos : 0 < pageHeight := by omega
  have hmem : ∀ (m : Nat) (first q : Int) (rect : QRectF) (fl : Nat) (number : Int),
      DrawCmd.text rect fl number ∈ (List.range m).map (fun (k : Nat) =>
        DrawCmd.text (bottomMarginRect s (first + k * pageHeight))
          (AlignVCenter ||| (s.m_pageNumbersAlignment ^^^ AlignBottom)) (q + k))
      ↔ ∃ k : Nat, k < m ∧ rect = bottomMarginRect s (first + k * pageHeight)
          ∧ fl = AlignVCenter ||| (s.m_pageNumbersAlignment ^^^ AlignBottom)
          ∧ number = q + k := by
    intro m first q rect fl number
    simp only [List.mem_map, List.mem_range, DrawCmd.text.injEq]
    constructor
    · rintro ⟨k, hk, h1, h2, h3⟩
      exact ⟨k, hk, h1.symm, h2.symm, h3.symm⟩
    · rintro ⟨k, hk, h1, h2, h3⟩
      exact ⟨k, hk, h1.symm, h2.symm, h3.symm⟩
  refine ⟨_, _, _, _, rfl, rfl, hcalls, hdrawn, rfl, by simp, ?_, ?_, ?_, ?_, ?_, ?_⟩
  · refine (List.nodup_range _).map_on ?_
    intro a _ b _ hab
    injection hab with _ _ h3
    omega
  · intro c _ hc
    simp only [paintPageNumber, hc, if_true, htop, Bool.false_eq_true, if_false]
  · intro cmd hc
    obtain ⟨k, hk, rfl⟩ := List.mem_map.mp hc
    have h1 := (lt_breakCount_iff pageHeight (s.height - 1) _ hph k).mp (List.mem_range.mp hk)
    have h0 := one_le_first_curHeight pageHeight v hph
    have hk0 : (0 : Int) ≤ (k : Int) * pageHeight := mul_nonneg (Int.ofNat_nonneg k) (by omega)
    exact ⟨_, _, rfl, by linarith, by linarith⟩
  · intro hv
    have htmod : Int.tmod v pageHeight = v % pageHeight := Int.tmod_eq_emod hv (by omega)
    have hq := firstPageNumber_eq v pageHeight hv hph
    rw [htmod, hq]
    refine ⟨?_, ?_, ?_⟩
    · intro page
      rw [hmem]
      constructor
      · rintro ⟨k, hk, -, -, h3⟩
        have h1 := (lt_breakCount_iff pageHeight (s.height - 1) _ hph k).mp hk
        have h2 := pageNumber_mul pageHeight v k
        rw [← h3] at h2
        have h4 : 1 ≤ pageHeight - v % pageHeight + (k : Int) * pageHeight :=
          ((break_positions_iff pageHeight (s.height - 1) v hph _).mp ⟨k, hk, rfl⟩).1
        constructor <;> linarith
      · rintro ⟨h1, h2⟩
        obtain ⟨k, hk, hy⟩ := (break_positions_iff pageHeight (s.height - 1) v hph
          (page * pageHeight - v)).mpr ⟨by omega, by omega, ⟨page, by ring⟩⟩
        have h3 := pageNumber_mul pageHeight v k
        have h4 : page * pageHeight = (v / pageHeight + 1 + k) * pageHeight := by linarith
        have h5 : page = v / pageHeight + 1 + k := Int.eq_of_mul_eq_mul_right (by omega) h4
        exact ⟨k, hk, by rw [hy], rfl, h5⟩
    · intro rect fl number hin
      obtain ⟨k, hk, h1, h2, h3⟩ := (hmem _ _ _ rect fl number).mp hin
      have h4 := pageNumber_mul pageHeight v k
      rw [← h3] at h4
      have h5 := (lt_breakCount_iff pageHeight (s.height - 1) _ hph k).mp hk
      have h6 : 1 ≤ pageHeight - v % pageHeight + (k : Int) * pageHeight :=
        ((break_positions_iff pageHeight (s.height - 1) v hph _).mp ⟨k, hk, rfl⟩).1
      have h7 : number * pageHeight - v
          = pageHeight - v % pageHeight + (k : Int) * pageHeight := by
        linarith
      refine ⟨by rw [h7]; exact h1, h2, by linarith, by linarith⟩
    · refine List.map_congr_left ?_
      intro k _
      have h4 := pageNumber_mul pageHeight v k
      have h7 : (v / pageHeight + 1 + (k : Int)) * pageHeight - v
          = pageHeight - v % pageHeight + (k : Int) * pageHeight := by
        linarith
      rw [h7]
  · rintro rfl h2 rfl
    rw [h2]
    simp only [List.length_map, List.length_range]
    decide
  · rintro rfl h2 rfl
    rw [h2]
    simp only [List.length_map, List.length_range]
    decide

/-- Witness for C4: pages of height 1000 in a widget of height 1500 scrolled to
the top, numbers at the bottom centre: one number, the 1 in the bottom band of
page 1, and none for page 2; and the short document widget after its paint
event, with the scroll value -500: one number, in a bottom band. -/
theorem C4_bottom_numbers_witness :
    (bottomNumbersWidget.m_usePageMode = true
      ∧ bottomNumbersWidget.m_pageMetrics.pxPageMargins.isNull = false
      ∧ bottomNumbersWidget.m_showPageNumbers = true
      ∧ testFlag bottomNumbersWidget.m_pageNumbersAlignment AlignBottom = true
      ∧ testFlag bottomNumbersWidget.m_pageNumbersAlignment AlignTop = false
      ∧ (1 : Int) ≤ 1000
      ∧ breakCount 1000 (bottomNumbersWidget.height - 1) (1000 - Int.tmod 0 1000) < 2
      ∧ ∃ drawn, paintPageNumbers 2 bottomNumbersWidget = some drawn ∧ drawn.length = 1
          ∧ DrawCmd.text (bottomMarginRect bottomNumbersWidget (1 * 1000 - 0))
              (AlignVCenter ||| (bottomNumbersWidget.m_pageNumbersAlignment ^^^ AlignBottom)) 1
                ∈ drawn
          ∧ DrawCmd.text (bottomMarginRect bottomNumbersWidget (2 * 1000 - 0))
              (AlignVCenter ||| (bottomNumbersWidget.m_pageNumbersAlignment ^^^ AlignBottom)) 2
                ∉ drawn)
      ∧ (afterRangeChange shortDocumentWidget).m_usePageMode = true
      ∧ (afterRangeChange shortDocumentWidget).verticalScrollBar.value = -500
      ∧ breakCount 1000 ((afterRangeChange shortDocumentWidget).height - 1)
          (1000 - Int.tmod (-500) 1000) < 4
      ∧ ∃ drawn, paintPageNumbers 4 (afterRangeChange shortDocumentWidget) = some drawn
          ∧ drawn.length = 1
          ∧ ∀ cmd ∈ drawn, ∃ (y number : Int),
              cmd = DrawCmd.text (bottomMarginRect (afterRangeChange shortDocumentWidget) y)
                (AlignVCenter
                  ||| ((afterRangeChange shortDocumentWidget).m_pageNumbersAlignment
                    ^^^ AlignBottom)) number
                ∧ 0 < y ∧ y < (afterRangeChange shortDocumentWidget).height := by
  obtain ⟨a1, a2, a3, a4, a5, a6, a7, a8⟩ := afterRangeChange_shortDocumentWidget
  have hf : breakCount 1000 ((afterRangeChange shortDocumentWidget).height - 1)
      (1000 - Int.tmod (-500) 1000) < 4 := by rw [a8]; decide
  obtain ⟨n, flags, calls, drawn, -, hfl, -, hd, -, -, -, -, -, hpages, h1, -⟩ :=
    C4_bottom_numbers 2 bottomNumbersWidget 1000 0 rfl rfl rfl (by decide) (by decide) rfl rfl
      (by decide) (by decide)
  obtain ⟨m, flags', calls', drawn', hm, hfl', -, hd', -, hlen', -, -, hall', -⟩ :=
    C4_bottom_numbers 4 (afterRangeChange shortDocumentWidget) 1000 (-500) a1 a2 a3 a4 a5 a6 a7
      (by decide) hf
  have hm1 : m = 1 := by rw [hm, a8]; decide
  obtain ⟨hiff, -, -⟩ := hpages (le_refl 0)
  refine ⟨⟨rfl, rfl, rfl, by decide, by decide, by decide, by decide, drawn, hd, h1 rfl rfl rfl,
    ?_, ?_⟩, a1, a7, hf, drawn', hd', hlen'.trans hm1, ?_⟩
  · rw [← hfl]
    exact (hiff 1).mpr (by decide)
  · rw [← hfl]
    exact fun hin => absurd ((hiff 2).mp hin) (by decide)
  · rw [← hfl']
    exact hall'

/-! ## Viewport insets -/

/-- C5: in page mode, whenever the bottom inset is not the fixed constant, that
is when `height - pageHeight * pageCount > 40`, the insets fill the space left
by the document exactly: the top inset (20), the document height, the bottom
inset, the height of the horizontal scroll bar (0 when it is hidden) and 2 add
up to the height of the widget. -/
theorem C5_bottom_inset_fills_height (s : PagesTextEdit) (hmode : s.m_usePageMode = true)
    (hfit : s.height - s.m_pageMetrics.pxPageSize.height * s.document.pageCount > 40) :
    (updateViewportMargins s).viewportMargins.top = 20
      ∧ (updateViewportMargins s).viewportMargins.top
          + s.m_pageMetrics.pxPageSize.height * s.document.pageCount
          + (updateViewportMargins s).viewportMargins.bottom
          + (if s.horizontalScrollBar.isVisible then s.horizontalScrollBar.height else 0)
          + 2 = s.height := by
  rw [updateViewportMargins_paged s hmode]
  have h : s.height - s.m_pageMetrics.pxPageSize.height * s.document.pageCount > 20 + 20 := hfit
  simp only [h, if_true, true_and]
  ring

/-- Witness for C5: one page of height 1123 in a widget of height 1300. -/
theorem C5_bottom_inset_fills_height_witness :
    (pagedWidget ⟨794, 1123⟩ ⟨0, 0, 0, 0⟩ 1 1300 0).m_usePageMode = true
      ∧ (1300 : Int) - 1123 * 1 > 40
      ∧ (updateViewportMargins (pagedWidget ⟨794, 1123⟩ ⟨0, 0, 0, 0⟩ 1 1300 0)).viewportMargins.top
          + 1123 * 1
          + (updateViewportMargins
              (pagedWidget ⟨794, 1123⟩ ⟨0, 0, 0, 0⟩ 1 1300 0)).viewportMargins.bottom
          + 0 + 2 = 1300 :=
  ⟨rfl, by decide,
    (C5_bottom_inset_fills_height (pagedWidget ⟨794, 1123⟩ ⟨0, 0, 0, 0⟩ 1 1300 0) rfl
      (by decide)).2⟩

/-- C6 at the failing input: one page of height 1123 in a widget of height 1164
with the horizontal scroll bar hidden.  The test `41 > 40` selects the enlarged
bottom inset, which then is `1164 - 1123 - 0 - 20 - 2 = 19`, below the fixed
constant 20; the top inset is 20. -/
theorem C6_bottom_inset_below_default :
    (updateViewportMargins (pagedWidget ⟨794, 1123⟩ ⟨0, 0, 0, 0⟩ 1 1164 0)).viewportMargins.top
        = 20
      ∧ (updateViewportMargins
          (pagedWidget ⟨794, 1123⟩ ⟨0, 0, 0, 0⟩ 1 1164 0)).viewportMargins.bottom = 19
      ∧ ¬ (20 ≤ (updateViewportMargins
          (pagedWidget ⟨794, 1123⟩ ⟨0, 0, 0, 0⟩ 1 1164 0)).viewportMargins.bottom) := by
  rw [updateViewportMargins_paged _ rfl]
  decide

/-- C7: in page mode the left and right insets are equal; both are 0 when the
widget is not wider than the page, and both are
`(width - pageWidth - verticalScrollBarWidth - 4) / 2`, truncated toward zero
with the scroll bar width taken as 0 when it is hidden, when the widget is wider;
then `width - (left + pageWidth + right + verticalScrollBarWidth + 4)` is -1, 0
or 1. -/
theorem C7_horizontal_insets (s : PagesTextEdit) (hmode : s.m_usePageMode = true) :
    (updateViewportMargins s).viewportMargins.left
        = (updateViewportMargins s).viewportMargins.right
      ∧ (s.width ≤ s.m_pageMetrics.pxPageSize.width →
          (updateViewportMargins s).viewportMargins.left = 0
            ∧ (updateViewportMargins s).viewportMargins.right = 0)
      ∧ (s.width > s.m_pageMetrics.pxPageSize.width →
          (updateViewportMargins s).viewportMargins.left
              = Int.tdiv (s.width - s.m_pageMetrics.pxPageSize.width
                  - (if s.verticalScrollBar.isVisible then s.verticalScrollBar.width else 0) - 4) 2
            ∧ (updateViewportMargins s).viewportMargins.right
              = Int.tdiv (s.width - s.m_pageMetrics.pxPageSize.width
                  - (if s.verticalScrollBar.isVisible then s.verticalScrollBar.width else 0) - 4) 2
            ∧ (s.width - ((updateViewportMargins s).viewportMargins.left
                  + s.m_pageMetrics.pxPageSize.width
                  + (updateViewportMargins s).viewportMargins.right
                  + (if s.verticalScrollBar.isVisible then s.verticalScrollBar.width else 0) + 4)
                ∈ ({-1, 0, 1} : Set Int))) := by
  rw [updateViewportMargins_paged s hmode]
  refine ⟨rfl, ?_, ?_⟩
  · intro h
    have h2 : ¬ s.width > s.m_pageMetrics.pxPageSize.width := not_lt.mpr h
    simp only [h2, if_false, and_self]
  · intro h
    simp only [h, if_true, true_and]
    simp only [Set.mem_insert_iff, Set.mem_singleton_iff]
    generalize (if s.verticalScrollBar.isVisible then s.verticalScrollBar.width else 0) = v
    rcases tdiv_two_cases (s.width - s.m_pageMetrics.pxPageSize.width - v - 4) with ⟨_, h3⟩ | ⟨_, h3⟩
    · rw [h3]; omega
    · rw [h3]; omega

/-- Witness for C7: a widget 1000 wide around a page 794 wide with a visible
scroll bar 17 wide: both insets are `(1000 - 794 - 17 - 4) / 2 = 92` and one
pixel is left over. -/
theorem C7_horizontal_insets_witness :
    (pagedWidget ⟨794, 1123⟩ ⟨0, 0, 0, 0⟩ 1 700 0).m_usePageMode = true
      ∧ (updateViewportMargins (pagedWidget ⟨794, 1123⟩ ⟨0, 0, 0, 0⟩ 1 700 0)).viewportMargins.left
          = (updateViewportMargins
              (pagedWidget ⟨794, 1123⟩ ⟨0, 0, 0, 0⟩ 1 700 0)).viewportMargins.right
      ∧ (updateViewportMargins (pagedWidget ⟨794, 1123⟩ ⟨0, 0, 0, 0⟩ 1 700 0)).viewportMargins.left
          = 92 :=
  ⟨rfl, (C7_horizontal_insets (pagedWidget ⟨794, 1123⟩ ⟨0, 0, 0, 0⟩ 1 700 0) rfl).1,
    ((C7_horizontal_insets (pagedWidget ⟨794, 1123⟩ ⟨0, 0, 0, 0⟩ 1 700 0) rfl).2.2
      (by decide)).1.trans (by decide)⟩

/-! ## Toggles -/

/-- C8: each of `setUsePageMode`, `setAddSpaceToBottom`, `setShowPageNumbers`
and `setPageNumbersAlignment`, called with the value already stored, returns the
state unchanged (so no repaint is requested); called with a different value it
stores the value, requests exactly one repaint and changes nothing else. -/
theorem C8_toggles_repaint_on_change (s : PagesTextEdit) :
    (∀ v : Bool,
        (v = s.m_usePageMode → setUsePageMode s v = s)
        ∧ (v ≠ s.m_usePageMode → setUsePageMode s v
            = { s with m_usePageMode := v, repaintRequests := s.repaintRequests + 1 }))
      ∧ (∀ v : Bool,
        (v = s.m_addBottomSpace → setAddSpaceToBottom s v = s)
        ∧ (v ≠ s.m_addBottomSpace → setAddSpaceToBottom s v
            = { s with m_addBottomSpace := v, repaintRequests := s.repaintRequests + 1 }))
      ∧ (∀ v : Bool,
        (v = s.m_showPageNumbers → setShowPageNumbers s v = s)
        ∧ (v ≠ s.m_showPageNumbers → setShowPageNumbers s v
            = { s with m_showPageNumbers := v, repaintRequests := s.repaintRequests + 1 }))
      ∧ (∀ v : Nat,
        (v = s.m_pageNumbersAlignment → setPageNumbersAlignment s v = s)
        ∧ (v ≠ s.m_pageNumbersAlignment → setPageNumbersAlignment s v
            = { s with m_pageNumbersAlignment := v, repaintRequests := s.repaintRequests + 1 })) := by
  refine ⟨fun v => ⟨?_, ?_⟩, fun v => ⟨?_, ?_⟩, fun v => ⟨?_, ?_⟩, fun v => ⟨?_, ?_⟩⟩
  · intro h; simp [setUsePageMode, h]
  · intro h; simp [setUsePageMode, repaint, Ne.symm h]
  · intro h; simp [setAddSpaceToBottom, h]
  · intro h; simp [setAddSpaceToBottom, repaint, Ne.symm h]
  · intro h; simp [setShowPageNumbers, h]
  · intro h; simp [setShowPageNumbers, repaint, Ne.symm h]
  · intro h; simp [setPageNumbersAlignment, h]
  · intro h; simp [setPageNumbersAlignment, repaint, Ne.symm h]

/-- Witness for C8: on the sample widget, switching page mode off again changes
nothing, switching it on requests one repaint; the same for an alignment. -/
theorem C8_toggles_repaint_on_change_witness :
    setUsePageMode sampleWidget false = sampleWidget
      ∧ (setUsePageMode sampleWidget true).m_usePageMode = true
      ∧ (setUsePageMode sampleWidget true).repaintRequests = 1
      ∧ (setPageNumbersAlignment sampleWidget (AlignBottom ||| AlignHCenter)).repaintRequests = 1 :=
  ⟨((C8_toggles_repaint_on_change sampleWidget).1 false).1 rfl,
    by rw [((C8_toggles_repaint_on_change sampleWidget).1 true).2 (by decide)],
    by rw [((C8_toggles_repaint_on_change sampleWidget).1 true).2 (by decide)]; rfl,
    by rw [((C8_toggles_repaint_on_change sampleWidget).2.2.2 (AlignBottom ||| AlignHCenter)).2
      (by decide)]; rfl⟩

/-! ## Scroll range in continuous mode -/

/-- C9 as stated fails: with a content height of 5000.5 pixels in a viewport
of height 700 and space added at the bottom, the maximum handed to the scroll bar
is the integer 5100 and not `5000.5 - 700 + 800 = 5100.5`. -/
theorem C9_fractional_content_height :
    fractionalHeightWidget.m_usePageMode = false
      ∧ fractionalHeightWidget.m_addBottomSpace = true
      ∧ ∃ s', updateVerticalScrollRange 2 fractionalHeightWidget = some s'
          ∧ s'.verticalScrollBar.maximum = 5100
          ∧ s'.verticalScrollBar.setMaximumCalls = [5100]
          ∧ (s'.verticalScrollBar.maximum : ℚ)
              ≠ fractionalHeightWidget.document.sizeHeight
                  - (fractionalHeightWidget.viewportHeight : ℚ) + 800 := by
  obtain ⟨s', h1, h2, h3⟩ := updateVerticalScrollRange_result 2 fractionalHeightWidget (le_refl 2)
  have hz : maximumValue fractionalHeightWidget = 5100 := by
    rw [maximumValue_continuous _ rfl]
    norm_num [qrealToInt, fractionalHeightWidget, sampleWidget]
    rfl
  rw [hz] at h2 h3
  refine ⟨rfl, rfl, s', h1, h2, ?_, ?_⟩
  · rw [h3]; rfl
  · rw [h2]; norm_num [fractionalHeightWidget, sampleWidget]

/-- C9 as amended: in continuous mode `updateVerticalScrollRange` returns, and
afterwards the maximum of the vertical scroll bar is the content height less the
viewport height, plus 800 when space is added at the bottom, converted to `int`
(the fraction is dropped); for a content height that is a whole number it is
exactly `contentHeight - viewportHeight + 800`, respectively
`contentHeight - viewportHeight`; for content height 5000, viewport height 700
and space added it is 5100. -/
theorem C9_continuous_scroll_maximum (fuel : Nat) (s : PagesTextEdit)
    (hmode : s.m_usePageMode = false) (hfuel : 2 ≤ fuel) :
    ∃ s', updateVerticalScrollRange fuel s = some s'
      ∧ s'.verticalScrollBar.maximum
          = qrealToInt (s.document.sizeHeight - (s.viewportHeight : ℚ)
              + (if s.m_addBottomSpace then 800 else 0))
      ∧ (∀ contentHeight : Int, s.document.sizeHeight = (contentHeight : ℚ) →
          s'.verticalScrollBar.maximum
            = contentHeight - s.viewportHeight + (if s.m_addBottomSpace then 800 else 0))
      ∧ (s.document.sizeHeight = 5000 → s.viewportHeight = 700 → s.m_addBottomSpace = true →
          s'.verticalScrollBar.maximum = 5100) := by
  obtain ⟨s', h1, h2, -⟩ := updateVerticalScrollRange_result fuel s hfuel
  rw [maximumValue_continuous s hmode] at h2
  have hwhole : ∀ contentHeight : Int, s.document.sizeHeight = (contentHeight : ℚ) →
      s'.verticalScrollBar.maximum
        = contentHeight - s.viewportHeight + (if s.m_addBottomSpace then 800 else 0) := by
    intro c hc
    rw [h2, hc]
    have : ((c : ℚ) - (s.viewportHeight : ℚ) + (if s.m_addBottomSpace then 800 else 0))
        = (((c - s.viewportHeight + (if s.m_addBottomSpace then 800 else 0) : Int)) : ℚ) := by
      cases s.m_addBottomSpace <;> simp
    rw [this, qrealToInt_intCast]
  refine ⟨s', h1, h2, hwhole, ?_⟩
  intro e1 e2 e3
  rw [hwhole 5000 (by rw [e1]; norm_num), e2, e3]
  rfl

/-- Witness for C9: content height 5000 in a viewport of height 700 with space
added at the bottom. -/
theorem C9_continuous_scroll_maximum_witness :
    ({ sampleWidget with document := { sampleWidget.document with sizeHeight := 5000 } }
        : PagesTextEdit).m_usePageMode = false ∧ 2 ≤ 2
      ∧ ∃ s', updateVerticalScrollRange 2
            { sampleWidget with document := { sampleWidget.document with sizeHeight := 5000 } }
            = some s'
          ∧ s'.verticalScrollBar.maximum = 5100 := by
  obtain ⟨s', h1, _, _, h4⟩ := C9_continuous_scroll_maximum 2
    { sampleWidget with document := { sampleWidget.document with sizeHeight := 5000 } }
    rfl (le_refl 2)
  exact ⟨rfl, le_refl 2, s', h1, h4 rfl rfl rfl⟩

/-! ## The mirror of the page metrics in the document -/

theorem resizeEvent_mirror (fuel : Nat) (r : PagesTextEdit) (hr : r.m_usePageMode = true)
    (hfuel2 : 2 ≤ fuel) :
    ∃ r', resizeEvent fuel r = some r' ∧ r'.m_usePageMode = true
      ∧ r'.m_pageMetrics = r.m_pageMetrics
      ∧ r'.document.pageSize = r'.m_pageMetrics.pxPageSize
      ∧ r'.document.rootFrameMargins = r'.m_pageMetrics.pxPageMargins := by
  obtain ⟨f1, -, -, -, f5, -⟩ := updateViewportMargins_frame r
  obtain ⟨m1, m2⟩ := updateViewportMargins_mirror r hr
  have hr2 : (updateViewportMargins r).m_usePageMode = true := f1.trans hr
  rw [resizeEvent, updateVerticalScrollRange_eq fuel _ hfuel2]
  refine ⟨_, rfl, ?_⟩
  split_ifs
  · obtain ⟨a1, a2, a3, a4⟩ := afterRangeChange_mirror (updateViewportMargins r) hr2
    exact ⟨a1, a2.trans f5, a3.trans (by rw [a2]), a4.trans (by rw [a2])⟩
  · exact ⟨hr2, f5, m1.trans (by rw [f5]), m2.trans (by rw [f5])⟩

theorem setter_keeps_document (dev : Device) (s t : PagesTextEdit) (_pageFormat : PageSizeId)
    (_margins : QMarginsMm) (_use : Bool)
    (hop : t = setPageFormat dev s _pageFormat ∨ t = setPageMargins dev s _margins
      ∨ t = setUsePageMode s _use) :
    t.document = s.document := by
  rcases hop with rfl | rfl | rfl
  · rfl
  · rfl
  · unfold setUsePageMode
    split_ifs <;> rfl

theorem paintEvent_document (fuel : Nat) (t : PagesTextEdit)
    (hmode : t.m_usePageMode = true)
    (hph : 1 ≤ t.m_pageMetrics.pxPageSize.height)
    (hfuel2 : 2 ≤ fuel)
    (hfuel : breakCount t.m_pageMetrics.pxPageSize.height t.height 1 < fuel) :
    ∃ s' drawn, paintEvent fuel t = some (s', drawn)
      ∧ s'.m_usePageMode = true
      ∧ s'.m_pageMetrics = t.m_pageMetrics
      ∧ (t.verticalScrollBar.maximum
            ≠ t.m_pageMetrics.pxPageSize.height * t.document.pageCount - t.viewportHeight →
          s'.document.pageSize = s'.m_pageMetrics.pxPageSize
            ∧ s'.document.rootFrameMargins = s'.m_pageMetrics.pxPageMargins)
      ∧ (t.verticalScrollBar.maximum
            = t.m_pageMetrics.pxPageSize.height * t.document.pageCount - t.viewportHeight →
          s'.document = t.document) := by
  obtain ⟨drawn, hd⟩ := paintEvent_returns fuel t (fun _ => hph) hfuel2 hfuel
  rw [maximumValue_paged t hmode] at hd
  refine ⟨_, drawn, hd, ?_, ?_, ?_, ?_⟩
  · split_ifs
    · exact (afterRangeChange_mirror t hmode).1
    · exact hmode
  · split_ifs
    · exact (afterRangeChange_mirror t hmode).2.1
    · rfl
  · intro hne
    rw [if_pos hne]
    obtain ⟨-, a2, a3, a4⟩ := afterRangeChange_mirror t hmode
    exact ⟨a3.trans (by rw [a2]), a4.trans (by rw [a2])⟩
  · intro heq
    rw [if_neg (not_not.mpr heq)]

/-- C10 at the failing input: the synced widget is in page mode and its
document mirrors the page metrics.  `setPageMargins` with margins of 20 mm on a
screen of 96 dpi makes the pixel margins 76 and leaves the document as it is.
The paint event that the setter requests returns; it finds the scroll maximum
unchanged (2669), so it makes no call on the document, whose root frame margins
are still 0: in page mode the document does not mirror the page metrics.  A
resize event in the same state does run the synchronisation and leaves root
frame margins of 76. -/
theorem C10_margins_not_mirrored_after_repaint :
    syncedWidget.m_usePageMode = true
      ∧ syncedWidget.document.pageSize = syncedWidget.m_pageMetrics.pxPageSize
      ∧ syncedWidget.document.rootFrameMargins = syncedWidget.m_pageMetrics.pxPageMargins
      ∧ (setPageMargins screen96 syncedWidget ⟨20, 20, 20, 20⟩).document = syncedWidget.document
      ∧ (setPageMargins screen96 syncedWidget ⟨20, 20, 20, 20⟩).repaintRequests
          = syncedWidget.repaintRequests + 1
      ∧ (∃ s' drawn,
          paintEvent 2 (setPageMargins screen96 syncedWidget ⟨20, 20, 20, 20⟩) = some (s', drawn)
            ∧ s'.m_usePageMode = true
            ∧ s'.m_pageMetrics.pxPageSize = ⟨794, 1123⟩
            ∧ s'.m_pageMetrics.pxPageMargins = ⟨76, 76, 76, 76⟩
            ∧ s'.document.pageSize = ⟨794, 1123⟩
            ∧ s'.document.rootFrameMargins = ⟨0, 0, 0, 0⟩
            ∧ s'.document.calls = []
            ∧ s'.document.rootFrameMargins ≠ s'.m_pageMetrics.pxPageMargins)
      ∧ ∃ r, resizeEvent 2 (setPageMargins screen96 syncedWidget ⟨20, 20, 20, 20⟩) = some r
          ∧ r.m_usePageMode = true
          ∧ r.m_pageMetrics.pxPageMargins = ⟨76, 76, 76, 76⟩
          ∧ r.document.rootFrameMargins = ⟨76, 76, 76, 76⟩ := by
  refine ⟨rfl, rfl, rfl, rfl, rfl, ?_, ?_⟩
  · rw [setPageMargins_syncedWidget]
    obtain ⟨drawn, hd⟩ := paintEvent_returns 2
      { syncedWidget with
        m_pageMetrics :=
          { m_pageFormat := 0
            m_mmPageSize := ⟨210, 297⟩
            m_mmPageMargins := ⟨20, 20, 20, 20⟩
            m_pxPageSize := ⟨794, 1123⟩
            m_pxPageMargins := ⟨76, 76, 76, 76⟩ }
        repaintRequests := 1 } (fun _ => by decide) (le_refl 2) (by decide)
    rw [if_neg (by rw [maximumValue_paged _ rfl]; decide)] at hd
    exact ⟨_, drawn, hd, rfl, rfl, rfl, rfl, rfl, rfl, by decide⟩
  · rw [setPageMargins_syncedWidget]
    obtain ⟨r, h1, h2, h3, -, h5⟩ := resizeEvent_mirror 2
      { syncedWidget with
        m_pageMetrics :=
          { m_pageFormat := 0
            m_mmPageSize := ⟨210, 297⟩
            m_mmPageMargins := ⟨20, 20, 20, 20⟩
            m_pxPageSize := ⟨794, 1123⟩
            m_pxPageMargins := ⟨76, 76, 76, 76⟩ }
        repaintRequests := 1 } rfl (le_refl 2)
    have h6 : r.m_pageMetrics.pxPageMargins = ⟨76, 76, 76, 76⟩ := by rw [h3]; rfl
    exact ⟨r, h1, h2, h6, h5.trans h6⟩

/-! ## Further lemmas on flags, geometry and the loops -/

theorem testFlag_two_pow (i j : Nat) : testFlag i (2 ^ j) = i.testBit j := by
  unfold testFlag
  rw [Nat.and_two_pow]
  have hpos : 2 ^ j ≠ 0 := by positivity
  cases i.testBit j <;> simp [hpos, Ne.symm hpos]

theorem testFlag_AlignTop (i : Nat) : testFlag i AlignTop = i.testBit 5 :=
  testFlag_two_pow i 5

theorem testFlag_AlignBottom (i : Nat) : testFlag i AlignBottom = i.testBit 6 :=
  testFlag_two_pow i 6

theorem testFlag_AlignVCenter (i : Nat) : testFlag i AlignVCenter = i.testBit 7 :=
  testFlag_two_pow i 7

theorem xor_flag_of_or (band h : Nat) (hdisj : h &&& band = 0) : (band ||| h) ^^^ band = h := by
  apply Nat.eq_of_testBit_eq
  intro i
  have h1 : (h &&& band).testBit i = false := by rw [hdisj]; exact Nat.zero_testBit i
  rw [Nat.testBit_and] at h1
  rw [Nat.testBit_xor, Nat.testBit_or]
  cases hb : band.testBit i <;> cases hh : h.testBit i <;> simp_all

theorem paintPageNumbers_eq (fuel : Nat) (s : PagesTextEdit) (pageHeight v : Int)
    (hmode : s.m_usePageMode = true)
    (hmargins : s.m_pageMetrics.pxPageMargins.isNull = false)
    (hshow : s.m_showPageNumbers = true)
    (hheight : s.m_pageMetrics.pxPageSize.height = pageHeight)
    (hvalue : s.verticalScrollBar.value = v)
    (hph : 1 ≤ pageHeight) (hv : 0 ≤ v)
    (hfuel : breakCount pageHeight (s.height - 1) (pageHeight - v % pageHeight) < fuel) :
    paintPageNumbers fuel s
      = some ((if pageHeight - v % pageHeight - s.m_pageMetrics.pxPageMargins.top ≥ 0 then
              paintPageNumber s (topMarginRect s (pageHeight - v % pageHeight - pageHeight)) true
                (v / pageHeight + 1)
            else [])
          ++ (List.range (breakCount pageHeight (s.height - 1)
                (pageHeight - v % pageHeight))).flatMap fun (k : Nat) =>
              paintPageNumber s (bottomMarginRect s (pageHeight - v % pageHeight + k * pageHeight))
                  false (v / pageHeight + 1 + k)
                ++ paintPageNumber s
                  (topMarginRect s (pageHeight - v % pageHeight + k * pageHeight)) true
                  (v / pageHeight + 1 + k + 1)) := by
  rw [paintPageNumbers, paintPageNumbersCalls_eq fuel s pageHeight v hmode hmargins hshow hheight
    hvalue hph hv hfuel]
  simp only [Option.map_some', List.map_append, List.flatten_append]
  rw [flatten_map_pairs (fun c : PageNumberCall => paintPageNumber s c.rect c.isHeader c.number)]
  congr 2
  split_ifs
  · simp [topMarginRect]
  · rfl

theorem margins_ne_iff (a b : QMarginsF) :
    (a.left ≠ b.left ∨ a.top ≠ b.top ∨ a.right ≠ b.right ∨ a.bottom ≠ b.bottom) ↔ a ≠ b := by
  cases a
  cases b
  simp only [ne_eq, QMarginsF.mk.injEq]
  tauto

theorem aboutUpdateDocumentGeometry_eq (s : PagesTextEdit) :
    aboutUpdateDocumentGeometry s
      = { s with document :=
          { pageSize := documentSize s
            documentMargin := 0
            rootFrameMargins := s.m_pageMetrics.pxPageMargins
            pageCount := s.document.pageCount
            sizeHeight := s.document.sizeHeight
            calls := s.document.calls
              ++ (if s.document.pageSize ≠ documentSize s then
                    [DocumentCall.setPageSize (documentSize s)] else [])
              ++ (if s.document.documentMargin ≠ 0 then
                    [DocumentCall.setDocumentMargin 0] else [])
              ++ (if s.document.rootFrameMargins ≠ s.m_pageMetrics.pxPageMargins then
                    [DocumentCall.setFrameFormat s.m_pageMetrics.pxPageMargins] else []) } } := by
  have hsize : (if s.m_usePageMode = true then
        (⟨s.m_pageMetrics.pxPageSize.width, s.m_pageMetrics.pxPageSize.height⟩ : QSizeF)
      else ⟨s.width - s.verticalScrollBar.width, -1⟩) = documentSize s := rfl
  simp only [aboutUpdateDocumentGeometry, hsize, margins_ne_iff]
  by_cases h1 : s.document.pageSize = documentSize s
  all_goals by_cases h2 : s.document.documentMargin = 0
  all_goals by_cases h3 : s.document.rootFrameMargins = s.m_pageMetrics.pxPageMargins
  all_goals simp [h1, h2, h3, QTextDocument.setPageSize, QTextDocument.setDocumentMargin,
    QTextDocument.setFrameFormat]
  all_goals (cases hd : s.document; simp_all)

theorem mmToPx_zero (dev : Device) (x : Bool) : PageMetrics.mmToPx dev 0 x = 0 := by
  simp only [PageMetrics.mmToPx]
  rw [Int.floor_eq_iff]
  constructor <;> norm_num

theorem setPageMargins_zero_pxPageMargins (dev : Device) (s : PagesTextEdit) :
    (setPageMargins dev s ⟨0, 0, 0, 0⟩).m_pageMetrics.pxPageMargins = ⟨0, 0, 0, 0⟩ := by
  simp only [setPageMargins, repaint, PageMetrics.update, PageMetrics.pxPageMargins, mmToPx_zero]

theorem paintPageNumbersCalls_of_isNull (fuel : Nat) (s : PagesTextEdit)
    (h : s.m_pageMetrics.pxPageMargins.isNull = true) :
    paintPageNumbersCalls fuel s = some [] ∧ paintPageNumbers fuel s = some [] := by
  have h1 : paintPageNumbersCalls fuel s = some [] := by
    simp [paintPageNumbersCalls, h]
  exact ⟨h1, by rw [paintPageNumbers, h1]; rfl⟩

theorem setPageMargins_zero_marginsWidget :
    setPageMargins screen96 marginsWidget ⟨0, 0, 0, 0⟩
      = { marginsWidget with
          m_pageMetrics :=
            { m_pageFormat := 0
              m_mmPageSize := ⟨210, 297⟩
              m_mmPageMargins := ⟨0, 0, 0, 0⟩
              m_pxPageSize := ⟨794, 1123⟩
              m_pxPageMargins := ⟨0, 0, 0, 0⟩ }
          repaintRequests := 1 } := by
  obtain ⟨-, -, h3, h4⟩ := mmToPx_screen96_values
  have hfmt : marginsWidget.m_pageMetrics.pageFormat = 0 := rfl
  have hsz : screen96.pageSizeMm 0 = ⟨210, 297⟩ := rfl
  simp only [setPageMargins, repaint, PageMetrics.update, hfmt, hsz, h3, h4, mmToPx_zero]
  rfl

theorem paintPagesView_eq (fuel : Nat) (s : PagesTextEdit)
    (hmode : s.m_usePageMode = true)
    (hph : 1 ≤ s.m_pageMetrics.pxPageSize.height)
    (hfuel : breakCount s.m_pageMetrics.pxPageSize.height s.height
      (s.m_pageMetrics.pxPageSize.height
        - Int.tmod s.verticalScrollBar.value s.m_pageMetrics.pxPageSize.height) < fuel) :
    paintPagesView fuel s
      = some (topBorderLine s.m_pageMetrics.pxPageSize.height
            (s.m_pageMetrics.pxPageSize.width + (if Int.tmod s.width 2 = 0 then 2 else 1))
            (s.m_pageMetrics.pxPageSize.height
              - Int.tmod s.verticalScrollBar.value s.m_pageMetrics.pxPageSize.height)
          ++ ((List.range (breakCount s.m_pageMetrics.pxPageSize.height s.height
                (s.m_pageMetrics.pxPageSize.height
                  - Int.tmod s.verticalScrollBar.value s.m_pageMetrics.pxPageSize.height))).flatMap
              fun (k : Nat) =>
                pageBreakLines s s.m_pageMetrics.pxPageSize.height
                  (s.m_pageMetrics.pxPageSize.width + (if Int.tmod s.width 2 = 0 then 2 else 1))
                  s.horizontalScrollBar.value
                  (s.m_pageMetrics.pxPageSize.height
                    - Int.tmod s.verticalScrollBar.value s.m_pageMetrics.pxPageSize.height
                    + k * s.m_pageMetrics.pxPageSize.height))
          ++ closingLines s s.m_pageMetrics.pxPageSize.height
              (s.m_pageMetrics.pxPageSize.width + (if Int.tmod s.width 2 = 0 then 2 else 1))
              s.horizontalScrollBar.value
              (s.m_pageMetrics.pxPageSize.height
                - Int.tmod s.verticalScrollBar.value s.m_pageMetrics.pxPageSize.height
                + breakCount s.m_pageMetrics.pxPageSize.height s.height
                    (s.m_pageMetrics.pxPageSize.height
                      - Int.tmod s.verticalScrollBar.value s.m_pageMetrics.pxPageSize.height)
                  * s.m_pageMetrics.pxPageSize.height)) := by
  have hne : s.m_pageMetrics.pxPageSize.height ≠ 0 := by omega
  have hloop := paintPagesViewLoop_eq s s.m_pageMetrics.pxPageSize.height
    (s.m_pageMetrics.pxPageSize.width + (if Int.tmod s.width 2 = 0 then 2 else 1))
    s.horizontalScrollBar.value hph fuel _ hfuel
  simp only [paintPagesView, hmode, if_true, hne, if_false, hloop, Option.map_some']

theorem paintPagesViewLoop_none (s : PagesTextEdit) (pageHeight x horizontalDelta : Int)
    (hph : 1 ≤ pageHeight) (fuel : Nat) :
    ∀ curHeight : Int, fuel ≤ breakCount pageHeight s.height curHeight →
      paintPagesViewLoop s pageHeight x horizontalDelta fuel curHeight = none := by
  induction fuel with
  | zero => intro curHeight _; rfl
  | succ fuel ih =>
    intro curHeight hle
    have hc : curHeight ≤ s.height := by
      by_contra hgt
      have := breakCount_of_gt pageHeight s.height curHeight hph (not_le.mp hgt)
      omega
    have hstep := breakCount_step pageHeight s.height curHeight hph hc
    rw [paintPagesViewLoop, if_pos hc, ih (curHeight + pageHeight) (by omega)]
    rfl

theorem paintPageNumbersLoop_none (s : PagesTextEdit) (pageSize : QSizeF)
    (pageMargins : QMarginsF) (leftMarginPosition marginWidth : Int)
    (hph : 1 ≤ pageSize.height) (fuel : Nat) :
    ∀ curHeight pageNumber : Int,
      fuel ≤ breakCount pageSize.height (s.height - 1) curHeight →
      paintPageNumbersLoop s pageSize pageMargins leftMarginPosition marginWidth fuel
        curHeight pageNumber = none := by
  induction fuel with
  | zero => intro curHeight pageNumber _; rfl
  | succ fuel ih =>
    intro curHeight pageNumber hle
    have hc : curHeight < s.height := by
      by_contra hgt
      have := breakCount_of_gt pageSize.height (s.height - 1) curHeight hph (by omega)
      omega
    have hstep := breakCount_step pageSize.height (s.height - 1) curHeight hph (by omega)
    rw [paintPageNumbersLoop, if_pos hc, ih (curHeight + pageSize.height) (pageNumber + 1)
      (by omega)]
    rfl

theorem breakCount_le_bound (pageHeight height curHeight : Int) (hph : 1 ≤ pageHeight)
    (hcur : 1 ≤ curHeight) :
    breakCount pageHeight height curHeight ≤ (max height 0 / pageHeight).toNat + 1 := by
  by_contra hlt
  push_neg at hlt
  have h1 := (lt_breakCount_iff pageHeight height curHeight hph _).mp hlt
  have hpos : 0 < pageHeight := by omega
  have hq : 0 ≤ max height 0 / pageHeight := Int.ediv_nonneg (le_max_right _ _) (by omega)
  have hcast : (((max height 0 / pageHeight).toNat + 1 : Nat) : Int)
      = max height 0 / pageHeight + 1 := by
    push_cast
    rw [Int.toNat_of_nonneg hq]
  rw [hcast] at h1
  have h2 : max height 0 < (max height 0 / pageHeight + 1) * pageHeight :=
    Int.lt_ediv_add_one_mul_self _ hpos
  have h3 : height ≤ max height 0 := le_max_left _ _
  linarith

/-! ## Alignment of the page numbers -/

/-- C11 as stated fails.  With the alignment `AlignVCenter | AlignHCenter`,
which `setPageNumbersAlignment` stores like any other, the page boundary at 1000
is handled (one call for the bottom band, one for the top band) and no number is
drawn in either band; with `AlignTop | AlignBottom | AlignRight` a number is
drawn in both bands of that boundary, 1 in the bottom band and 2 in the top
band. -/
theorem C11_neither_band_or_both_bands :
    centredNumbersWidget.m_pageNumbersAlignment = AlignVCenter ||| AlignHCenter
      ∧ paintPageNumbersCalls 2 centredNumbersWidget
          = some [⟨⟨50, 0, 694, 50⟩, true, 1⟩, ⟨⟨50, 950, 694, 50⟩, false, 1⟩,
              ⟨⟨50, 1000, 694, 50⟩, true, 2⟩]
      ∧ paintPageNumbers 2 centredNumbersWidget = some []
      ∧ doubleNumbersWidget.m_pageNumbersAlignment = AlignTop ||| AlignBottom ||| AlignRight
      ∧ paintPageNumbers 2 doubleNumbersWidget
          = some [DrawCmd.text ⟨50, 0, 694, 50⟩ 194 1, DrawCmd.text ⟨50, 950, 694, 50⟩ 162 1,
              DrawCmd.text ⟨50, 1000, 694, 50⟩ 194 2] := by
  have h1 := paintPageNumbersCalls_eq 2 centredNumbersWidget 1000 0 rfl rfl rfl rfl rfl
    (by decide) (by decide) (by decide)
  have h2 := paintPageNumbers_eq 2 centredNumbersWidget 1000 0 rfl rfl rfl rfl rfl
    (by decide) (by decide) (by decide)
  have h3 := paintPageNumbers_eq 2 doubleNumbersWidget 1000 0 rfl rfl rfl rfl rfl
    (by decide) (by decide) (by decide)
  refine ⟨rfl, ?_, ?_, rfl, ?_⟩
  · rw [h1]; decide
  · rw [h2]; decide
  · rw [h3]; decide

/-- C11 as amended: `setPageNumbersAlignment` stores every alignment value, and
at every page boundary handled by `paintPageNumbers` the two bands are decided
independently: a number is drawn in the bottom band of the page that ends
exactly when `AlignBottom` is set, and in the top band of the page that starts
exactly when `AlignTop` is set.  So one number is drawn when exactly one of the
two flags is set, two when both are set and none when neither is set. -/
theorem C11_band_per_flag (fuel : Nat) (s : PagesTextEdit) (pageHeight v : Int)
    (hmode : s.m_usePageMode = true)
    (hmargins : s.m_pageMetrics.pxPageMargins.isNull = false)
    (hshow : s.m_showPageNumbers = true)
    (hheight : s.m_pageMetrics.pxPageSize.height = pageHeight)
    (hvalue : s.verticalScrollBar.value = v)
    (hph : 1 ≤ pageHeight) (hv : 0 ≤ v)
    (hfuel : breakCount pageHeight (s.height - 1) (pageHeight - v % pageHeight) < fuel) :
    (∀ (t : PagesTextEdit) (_align : Nat),
        (setPageNumbersAlignment t _align).m_pageNumbersAlignment = _align)
      ∧ (∃ (n : Nat) (first : List DrawCmd),
          n = breakCount pageHeight (s.height - 1) (pageHeight - v % pageHeight)
          ∧ paintPageNumbers fuel s
            = some (first ++ (List.range n).flatMap fun (k : Nat) =>
                paintPageNumber s
                    (bottomMarginRect s (pageHeight - v % pageHeight + k * pageHeight)) false
                    (v / pageHeight + 1 + k)
                  ++ paintPageNumber s
                    (topMarginRect s (pageHeight - v % pageHeight + k * pageHeight)) true
                    (v / pageHeight + 1 + k + 1)))
      ∧ (∀ (bottomRect topRect : QRectF) (ending starting : Int),
          paintPageNumber s bottomRect false ending
              = (if testFlag s.m_pageNumbersAlignment AlignBottom then
                  [DrawCmd.text bottomRect
                    (AlignVCenter ||| (s.m_pageNumbersAlignment ^^^ AlignBottom)) ending]
                else [])
            ∧ paintPageNumber s topRect true starting
              = (if testFlag s.m_pageNumbersAlignment AlignTop then
                  [DrawCmd.text topRect
                    (AlignVCenter ||| (s.m_pageNumbersAlignment ^^^ AlignTop)) starting]
                else [])
            ∧ (paintPageNumber s bottomRect false ending
                ++ paintPageNumber s topRect true starting).length
              = (if testFlag s.m_pageNumbersAlignment AlignBottom then 1 else 0)
                + (if testFlag s.m_pageNumbersAlignment AlignTop then 1 else 0)) := by
  refine ⟨?_, ⟨_, _, rfl, paintPageNumbers_eq fuel s pageHeight v hmode hmargins hshow hheight
    hvalue hph hv hfuel⟩, ?_⟩
  · intro t a
    unfold setPageNumbersAlignment
    by_cases h : t.m_pageNumbersAlignment = a
    · simp [h]
    · simp [h, repaint]
  · intro bottomRect topRect ending starting
    refine ⟨by simp [paintPageNumber], by simp [paintPageNumber], ?_⟩
    simp only [paintPageNumber, Bool.false_eq_true, if_false, if_true, List.length_append]
    cases testFlag s.m_pageNumbersAlignment AlignBottom <;>
      cases testFlag s.m_pageNumbersAlignment AlignTop <;> rfl

/-- Witness for C11: the bottom numbers widget (`AlignBottom | AlignHCenter`)
draws one number, in the bottom band, at the page boundary 1000. -/
theorem C11_band_per_flag_witness :
    bottomNumbersWidget.m_usePageMode = true
      ∧ bottomNumbersWidget.m_pageMetrics.pxPageMargins.isNull = false
      ∧ bottomNumbersWidget.m_showPageNumbers = true
      ∧ (1 : Int) ≤ 1000 ∧ (0 : Int) ≤ 0
      ∧ breakCount 1000 (bottomNumbersWidget.height - 1) (1000 - 0 % 1000) < 2
      ∧ (paintPageNumber bottomNumbersWidget ⟨50, 950, 694, 50⟩ false 1
          ++ paintPageNumber bottomNumbersWidget ⟨50, 1000, 694, 50⟩ true 2).length = 1 := by
  obtain ⟨-, -, h⟩ :=
    C11_band_per_flag 2 bottomNumbersWidget 1000 0 rfl rfl rfl rfl rfl (by decide) (by decide)
      (by decide)
  refine ⟨rfl, rfl, rfl, by decide, by decide, by decide, ?_⟩
  rw [(h ⟨50, 950, 694, 50⟩ ⟨50, 1000, 694, 50⟩ 1 2).2.2]
  decide

/-- C12 as stated fails: with the alignment `AlignTop | AlignBottom |
AlignRight` the number drawn in a top band gets the flags
`AlignVCenter | (alignment ^ AlignTop) = 194`, which still contain `AlignBottom`
and differ from `AlignVCenter | AlignRight = 130`. -/
theorem C12_flags_keep_other_vertical_flag :
    doubleNumbersWidget.m_pageNumbersAlignment = AlignTop ||| AlignBottom ||| AlignRight
      ∧ paintPageNumber doubleNumbersWidget ⟨50, 1000, 694, 50⟩ true 2
          = [DrawCmd.text ⟨50, 1000, 694, 50⟩ 194 2]
      ∧ testFlag 194 AlignBottom = true
      ∧ (194 : Nat) ≠ AlignVCenter ||| AlignRight := by
  refine ⟨rfl, by decide, by decide, by decide⟩

/-- C12 as amended: whenever `paintPageNumber` draws a number, the flag of the
band (`AlignTop` in a top band, `AlignBottom` in a bottom band) is set in the
configured alignment and the text flags are `AlignVCenter` joined with the
configured alignment with that one flag cleared: they contain `AlignVCenter` and
not the flag of the band.  When the configured alignment is the flag of the band
joined with a part `h` that holds neither `AlignTop` nor `AlignBottom`, the flags
are `AlignVCenter | h` and contain neither `AlignTop` nor `AlignBottom`. -/
theorem C12_text_flags (s : PagesTextEdit) (_rect : QRectF) (_isHeader : Bool) (_number : Int)
    (cmd : DrawCmd) (hdrawn : cmd ∈ paintPageNumber s _rect _isHeader _number) :
    ∃ band flags : Nat,
      band = (if _isHeader then AlignTop else AlignBottom)
      ∧ flags = AlignVCenter ||| (s.m_pageNumbersAlignment ^^^ band)
      ∧ testFlag s.m_pageNumbersAlignment band = true
      ∧ cmd = DrawCmd.text _rect flags _number
      ∧ testFlag flags AlignVCenter = true
      ∧ testFlag flags band = false
      ∧ (∀ h : Nat, h &&& (AlignTop ||| AlignBottom) = 0 →
          s.m_pageNumbersAlignment = band ||| h →
          flags = AlignVCenter ||| h
            ∧ testFlag flags AlignTop = false ∧ testFlag flags AlignBottom = false) := by
  have hgen : ∀ (j : Nat), (j = 5 ∨ j = 6) →
      testFlag s.m_pageNumbersAlignment (2 ^ j) = true →
      testFlag (AlignVCenter ||| (s.m_pageNumbersAlignment ^^^ 2 ^ j)) AlignVCenter = true
        ∧ testFlag (AlignVCenter ||| (s.m_pageNumbersAlignment ^^^ 2 ^ j)) (2 ^ j) = false
        ∧ (∀ h : Nat, h &&& (AlignTop ||| AlignBottom) = 0 →
            s.m_pageNumbersAlignment = 2 ^ j ||| h →
            AlignVCenter ||| (s.m_pageNumbersAlignment ^^^ 2 ^ j) = AlignVCenter ||| h
              ∧ testFlag (AlignVCenter ||| (s.m_pageNumbersAlignment ^^^ 2 ^ j)) AlignTop = false
              ∧ testFlag (AlignVCenter ||| (s.m_pageNumbersAlignment ^^^ 2 ^ j)) AlignBottom
                  = false) := by
    intro j hj hset
    rw [testFlag_two_pow] at hset
    have hvc : ∀ i, AlignVCenter.testBit i = decide (7 = i) := by
      intro i
      have : AlignVCenter = 2 ^ 7 := rfl
      rw [this, Nat.testBit_two_pow]
    refine ⟨?_, ?_, ?_⟩
    · rw [testFlag_AlignVCenter, Nat.testBit_or, hvc]
      simp
    · rw [testFlag_two_pow, Nat.testBit_or, Nat.testBit_xor, hset, Nat.testBit_two_pow_self, hvc]
      rcases hj with rfl | rfl <;> simp
    · intro h hdisj halign
      have hmask : ∀ i, (i = 5 ∨ i = 6) → h.testBit i = false := by
        intro i hi
        have h1 : (h &&& (AlignTop ||| AlignBottom)).testBit i = false := by
          rw [hdisj]; exact Nat.zero_testBit i
        rw [Nat.testBit_and] at h1
        have h2 : (AlignTop ||| AlignBottom).testBit i = true := by
          rcases hi with rfl | rfl <;> decide
        rw [h2] at h1
        simpa using h1
      have hdisj2 : h &&& 2 ^ j = 0 := by
        apply Nat.eq_of_testBit_eq
        intro i
        rw [Nat.testBit_and, Nat.testBit_two_pow, Nat.zero_testBit]
        by_cases hij : j = i
        · subst hij
          rw [hmask j hj]
          rfl
        · simp [hij]
      have hx : s.m_pageNumbersAlignment ^^^ 2 ^ j = h := by
        rw [halign]
        exact xor_flag_of_or (2 ^ j) h hdisj2
      rw [hx]
      refine ⟨rfl, ?_, ?_⟩
      · rw [testFlag_AlignTop, Nat.testBit_or, hvc, hmask 5 (Or.inl rfl)]
        rfl
      · rw [testFlag_AlignBottom, Nat.testBit_or, hvc, hmask 6 (Or.inr rfl)]
        rfl
  unfold paintPageNumber at hdrawn
  cases _isHeader with
  | true =>
    simp only [if_true] at hdrawn
    split_ifs at hdrawn with hflag
    · rw [List.mem_singleton] at hdrawn
      obtain ⟨a, b, c⟩ := hgen 5 (Or.inl rfl) hflag
      exact ⟨AlignTop, _, rfl, rfl, hflag, hdrawn, a, b, c⟩
    · exact absurd hdrawn (List.not_mem_nil _)
  | false =>
    simp only [Bool.false_eq_true, if_false] at hdrawn
    split_ifs at hdrawn with hflag
    · rw [List.mem_singleton] at hdrawn
      obtain ⟨a, b, c⟩ := hgen 6 (Or.inr rfl) hflag
      exact ⟨AlignBottom, _, rfl, rfl, hflag, hdrawn, a, b, c⟩
    · exact absurd hdrawn (List.not_mem_nil _)

/-- Witness for C12: the sample widget (`AlignTop | AlignRight`) draws the
number of a top band with the flags `AlignVCenter | AlignRight`. -/
theorem C12_text_flags_witness :
    DrawCmd.text ⟨50, 1000, 694, 50⟩ (AlignVCenter ||| AlignRight) 2
        ∈ paintPageNumber sampleWidget ⟨50, 1000, 694, 50⟩ true 2
      ∧ testFlag (AlignVCenter ||| AlignRight) AlignTop = false
      ∧ testFlag (AlignVCenter ||| AlignRight) AlignBottom = false := by
  have hmem : DrawCmd.text ⟨50, 1000, 694, 50⟩ (AlignVCenter ||| AlignRight) 2
      ∈ paintPageNumber sampleWidget ⟨50, 1000, 694, 50⟩ true 2 := by decide
  obtain ⟨band, flags, hband, -, -, -, -, -, h⟩ :=
    C12_text_flags sampleWidget ⟨50, 1000, 694, 50⟩ true 2 _ hmem
  have hb : band = AlignTop := by rw [hband]; rfl
  obtain ⟨h1, h2, h3⟩ := h AlignRight (by decide) (by rw [hb]; rfl)
  rw [h1] at h2 h3
  exact ⟨hmem, h2, h3⟩

/-! ## The geometry synchronisation run twice -/

/-- C13: one run of `aboutUpdateDocumentGeometry` leaves the document with the
page size (pixel page width, pixel page height) in page mode and
(width - vertical scroll bar width, -1) otherwise, document margin 0 and root
frame margins equal to the pixel margins of the page metrics, calling a setter
only for a value that differed; a second run on the resulting state calls no
setter and leaves the state unchanged. -/
theorem C13_geometry_sync_idempotent (s : PagesTextEdit) :
    (aboutUpdateDocumentGeometry s).document.pageSize
        = (if s.m_usePageMode then
            ⟨s.m_pageMetrics.pxPageSize.width, s.m_pageMetrics.pxPageSize.height⟩
          else ⟨s.width - s.verticalScrollBar.width, -1⟩)
      ∧ (aboutUpdateDocumentGeometry s).document.documentMargin = 0
      ∧ (aboutUpdateDocumentGeometry s).document.rootFrameMargins
          = s.m_pageMetrics.pxPageMargins
      ∧ (aboutUpdateDocumentGeometry s).document.calls
          = s.document.calls
            ++ (if s.document.pageSize ≠ documentSize s then
                  [DocumentCall.setPageSize (documentSize s)] else [])
            ++ (if s.document.documentMargin ≠ 0 then [DocumentCall.setDocumentMargin 0] else [])
            ++ (if s.document.rootFrameMargins ≠ s.m_pageMetrics.pxPageMargins then
                  [DocumentCall.setFrameFormat s.m_pageMetrics.pxPageMargins] else [])
      ∧ (aboutUpdateDocumentGeometry (aboutUpdateDocumentGeometry s)).document.calls
          = (aboutUpdateDocumentGeometry s).document.calls
      ∧ aboutUpdateDocumentGeometry (aboutUpdateDocumentGeometry s)
          = aboutUpdateDocumentGeometry s := by
  have h2 : aboutUpdateDocumentGeometry (aboutUpdateDocumentGeometry s)
      = aboutUpdateDocumentGeometry s := by
    rw [aboutUpdateDocumentGeometry_eq (aboutUpdateDocumentGeometry s)]
    rw [aboutUpdateDocumentGeometry_eq s]
    simp [documentSize]
  refine ⟨?_, ?_, ?_, ?_, by rw [h2], h2⟩
  all_goals rw [aboutUpdateDocumentGeometry_eq s]
  all_goals rfl

/-! ## Null margins and page numbers -/

/-- C14 as stated fails: the margins widget is in page mode with numbers shown,
and with its margins of 20 mm `paintPageNumbers` issues the numbers 1, 1 and 2.
After `setPageMargins` with all four margins 0 the pixel margins are null and
`paintPageNumbers` issues no number at all, although pages 1 and 2 are still
visible (the page boundary 1123 lies inside the height 1500). -/
theorem C14_zero_margins_suppress_numbers :
    marginsWidget.m_usePageMode = true
      ∧ marginsWidget.m_showPageNumbers = true
      ∧ paintPageNumbersCalls 2 marginsWidget
          = some [⟨⟨76, 0, 642, 76⟩, true, 1⟩, ⟨⟨76, 1047, 642, 76⟩, false, 1⟩,
              ⟨⟨76, 1123, 642, 76⟩, true, 2⟩]
      ∧ (setPageMargins screen96 marginsWidget ⟨0, 0, 0, 0⟩).m_usePageMode = true
      ∧ (setPageMargins screen96 marginsWidget ⟨0, 0, 0, 0⟩).m_showPageNumbers = true
      ∧ (setPageMargins screen96 marginsWidget ⟨0, 0, 0, 0⟩).m_pageMetrics.m_mmPageMargins
          = ⟨0, 0, 0, 0⟩
      ∧ (setPageMargins screen96 marginsWidget ⟨0, 0, 0, 0⟩).m_pageMetrics.pxPageSize.height = 1123
      ∧ (setPageMargins screen96 marginsWidget ⟨0, 0, 0, 0⟩).height = 1500
      ∧ paintPageNumbersCalls 2 (setPageMargins screen96 marginsWidget ⟨0, 0, 0, 0⟩) = some []
      ∧ paintPageNumbers 2 (setPageMargins screen96 marginsWidget ⟨0, 0, 0, 0⟩) = some [] := by
  have hcalls := paintPageNumbersCalls_eq 2 marginsWidget 1123 0 rfl rfl rfl rfl rfl (by decide)
    (by decide) (by decide)
  have hnull := paintPageNumbersCalls_of_isNull 2
    (setPageMargins screen96 marginsWidget ⟨0, 0, 0, 0⟩)
    (by rw [setPageMargins_zero_pxPageMargins]; rfl)
  refine ⟨rfl, rfl, ?_, rfl, rfl, rfl, ?_, rfl, hnull.1, hnull.2⟩
  · rw [hcalls]; decide
  · rw [setPageMargins_zero_marginsWidget]; rfl

/-- C14 as amended: margins configured as all zero are not told apart from
margins never configured: after `setPageMargins` with all four margins 0 the
millimetre and pixel margins are those of freshly constructed page metrics, the
pixel margins are null, and `paintPageNumbers` issues no number and draws
nothing, whatever the mode and the other options.  With page mode on, numbers
shown and pixel margins that are not null it does issue numbers: one for the
bottom band of every page that ends above the bottom of the widget. -/
theorem C14_null_margins_suppress_numbers (dev : Device) (s r : PagesTextEdit) (fuel : Nat)
    (pageHeight v : Int)
    (hmode : r.m_usePageMode = true)
    (hmargins : r.m_pageMetrics.pxPageMargins.isNull = false)
    (hshow : r.m_showPageNumbers = true)
    (hheight : r.m_pageMetrics.pxPageSize.height = pageHeight)
    (hvalue : r.verticalScrollBar.value = v)
    (hph : 1 ≤ pageHeight) (hv : 0 ≤ v)
    (hvisible : pageHeight - v % pageHeight < r.height)
    (hfuel : breakCount pageHeight (r.height - 1) (pageHeight - v % pageHeight) < fuel) :
    (setPageMargins dev s ⟨0, 0, 0, 0⟩).m_pageMetrics.m_mmPageMargins = ⟨0, 0, 0, 0⟩
      ∧ (setPageMargins dev s ⟨0, 0, 0, 0⟩).m_pageMetrics.pxPageMargins = ⟨0, 0, 0, 0⟩
      ∧ (∀ (pm : PageMetrics) (format : PageSizeId),
          (PageMetrics.update dev pm format ⟨0, 0, 0, 0⟩).m_mmPageMargins = ⟨0, 0, 0, 0⟩
            ∧ (PageMetrics.update dev pm format ⟨0, 0, 0, 0⟩).pxPageMargins = ⟨0, 0, 0, 0⟩)
      ∧ (setPageMargins dev s ⟨0, 0, 0, 0⟩).m_pageMetrics.pxPageMargins.isNull = true
      ∧ paintPageNumbersCalls fuel (setPageMargins dev s ⟨0, 0, 0, 0⟩) = some []
      ∧ paintPageNumbers fuel (setPageMargins dev s ⟨0, 0, 0, 0⟩) = some []
      ∧ ∃ calls, paintPageNumbersCalls fuel r = some calls
          ∧ (⟨bottomMarginRect r (pageHeight - v % pageHeight), false, v / pageHeight + 1⟩
              : PageNumberCall) ∈ calls := by
  have hpx := setPageMargins_zero_pxPageMargins dev s
  have hnull : (setPageMargins dev s ⟨0, 0, 0, 0⟩).m_pageMetrics.pxPageMargins.isNull = true := by
    rw [hpx]; rfl
  obtain ⟨h1, h2⟩ := paintPageNumbersCalls_of_isNull fuel _ hnull
  refine ⟨rfl, hpx, ?_, hnull, h1, h2, ?_⟩
  · intro pm format
    exact ⟨rfl, by simp only [PageMetrics.update, PageMetrics.pxPageMargins, mmToPx_zero]⟩
  · refine ⟨_, paintPageNumbersCalls_eq fuel r pageHeight v hmode hmargins hshow hheight hvalue
      hph hv hfuel, ?_⟩
    have hpos : 0 < breakCount pageHeight (r.height - 1) (pageHeight - v % pageHeight) :=
      (lt_breakCount_iff pageHeight (r.height - 1) _ hph 0).mpr (by simp; omega)
    refine List.mem_append_right _ (List.mem_flatMap.mpr ⟨0, List.mem_range.mpr hpos, ?_⟩)
    simp [bottomMarginRect]

/-- Witness for C14: the margins widget, with pixel margins of 76, issues the
number 1 for the bottom band that ends at 1123; the sample widget after
`setPageMargins` with margins 0 issues nothing. -/
theorem C14_null_margins_suppress_numbers_witness :
    marginsWidget.m_usePageMode = true
      ∧ marginsWidget.m_pageMetrics.pxPageMargins.isNull = false
      ∧ marginsWidget.m_showPageNumbers = true
      ∧ (1 : Int) ≤ 1123 ∧ (0 : Int) ≤ 0 ∧ (1123 : Int) - 0 % 1123 < marginsWidget.height
      ∧ breakCount 1123 (marginsWidget.height - 1) (1123 - 0 % 1123) < 2
      ∧ paintPageNumbers 2 (setPageMargins screen96 sampleWidget ⟨0, 0, 0, 0⟩) = some []
      ∧ ∃ calls, paintPageNumbersCalls 2 marginsWidget = some calls
          ∧ (⟨⟨76, 1047, 642, 76⟩, false, 1⟩ : PageNumberCall) ∈ calls := by
  obtain ⟨-, -, -, -, -, h6, calls, h7, h8⟩ :=
    C14_null_margins_suppress_numbers screen96 sampleWidget marginsWidget 2 1123 0 rfl rfl rfl
      rfl rfl (by decide) (by decide) (by decide) (by decide)
  exact ⟨rfl, rfl, rfl, by decide, by decide, by decide, by decide, h6, calls, h7, h8⟩

/-! ## Termination of the page loops -/

/-- C15: for a page height of at least 1, every scroll value `v` and every
widget height, the loop of `paintPagesView` makes exactly `n` passes and the loop
of `paintPageNumbers` exactly `m` passes (each returns with fuel for one more
test of its condition than passes, and not with less), the running height of
pass `k` being the first one plus `k` page heights; `paintPagesView` and
`paintPageNumbers` themselves return; and for `v` at least 0 both `n` and `m`
are at most `max(height, 0) / pageHeight + 1` (quotient rounded down). -/
theorem C15_page_loops_terminate (s : PagesTextEdit) (pageHeight v : Int)
    (hheight : s.m_pageMetrics.pxPageSize.height = pageHeight)
    (hvalue : s.verticalScrollBar.value = v)
    (hph : 1 ≤ pageHeight) :
    ∃ n m : Nat,
      (∀ (x horizontalDelta : Int) (fuel : Nat), n < fuel →
          paintPagesViewLoop s pageHeight x horizontalDelta fuel
              (pageHeight - Int.tmod v pageHeight)
            = some (pageHeight - Int.tmod v pageHeight + n * pageHeight,
                (List.range n).flatMap fun (k : Nat) =>
                  pageBreakLines s pageHeight x horizontalDelta
                    (pageHeight - Int.tmod v pageHeight + k * pageHeight)))
      ∧ (∀ (x horizontalDelta : Int) (fuel : Nat), fuel ≤ n →
          paintPagesViewLoop s pageHeight x horizontalDelta fuel
              (pageHeight - Int.tmod v pageHeight) = none)
      ∧ (∀ (pageMargins : QMarginsF) (left marginWidth pageNumber : Int) (fuel : Nat),
          m < fuel →
          paintPageNumbersLoop s s.m_pageMetrics.pxPageSize pageMargins left marginWidth fuel
              (pageHeight - Int.tmod v pageHeight) pageNumber
            = some ((List.range m).flatMap fun (k : Nat) =>
                [(⟨⟨left, pageHeight - Int.tmod v pageHeight + k * pageHeight
                      - pageMargins.bottom, marginWidth, pageMargins.bottom⟩, false,
                    pageNumber + k⟩ : PageNumberCall),
                 ⟨⟨left, pageHeight - Int.tmod v pageHeight + k * pageHeight, marginWidth,
                      pageMargins.top⟩, true, pageNumber + k + 1⟩]))
      ∧ (∀ (pageMargins : QMarginsF) (left marginWidth pageNumber : Int) (fuel : Nat),
          fuel ≤ m →
          paintPageNumbersLoop s s.m_pageMetrics.pxPageSize pageMargins left marginWidth fuel
              (pageHeight - Int.tmod v pageHeight) pageNumber = none)
      ∧ (∀ fuel : Nat, n < fuel →
          (∃ drawn, paintPagesView fuel s = some drawn)
            ∧ ∃ drawn, paintPageNumbers fuel s = some drawn)
      ∧ m ≤ n
      ∧ (0 ≤ v → n ≤ (max s.height 0 / pageHeight).toNat + 1
          ∧ m ≤ (max s.height 0 / pageHeight).toNat + 1) := by
  have hcur := one_le_first_curHeight pageHeight v hph
  have hmn : breakCount pageHeight (s.height - 1) (pageHeight - Int.tmod v pageHeight)
      ≤ breakCount pageHeight s.height (pageHeight - Int.tmod v pageHeight) :=
    breakCount_le pageHeight _ _ _ _ hph (by omega) (le_refl _)
  have hph2 : 1 ≤ s.m_pageMetrics.pxPageSize.height := by rw [hheight]; exact hph
  refine ⟨breakCount pageHeight s.height (pageHeight - Int.tmod v pageHeight),
    breakCount pageHeight (s.height - 1) (pageHeight - Int.tmod v pageHeight),
    ?_, ?_, ?_, ?_, ?_, hmn, ?_⟩
  · intro x horizontalDelta fuel hfuel
    exact paintPagesViewLoop_eq s pageHeight x horizontalDelta hph fuel _ hfuel
  · intro x horizontalDelta fuel hfuel
    exact paintPagesViewLoop_none s pageHeight x horizontalDelta hph fuel _ hfuel
  · intro pageMargins left marginWidth pageNumber fuel hfuel
    have h := paintPageNumbersLoop_eq s s.m_pageMetrics.pxPageSize pageMargins left marginWidth
      hph2 fuel (pageHeight - Int.tmod v pageHeight) pageNumber (by rw [hheight]; exact hfuel)
    rw [hheight] at h
    exact h
  · intro pageMargins left marginWidth pageNumber fuel hfuel
    exact paintPageNumbersLoop_none s s.m_pageMetrics.pxPageSize pageMargins left marginWidth
      hph2 fuel _ pageNumber (by rw [hheight]; exact hfuel)
  · intro fuel hfuel
    by_cases hmode : s.m_usePageMode = true
    · constructor
      · exact ⟨_, paintPagesView_eq fuel s hmode hph2 (by rw [hheight, hvalue]; exact hfuel)⟩
      · suffices h : ∃ calls, paintPageNumbersCalls fuel s = some calls by
          obtain ⟨calls, hc⟩ := h
          rw [paintPageNumbers, hc]
          exact ⟨_, rfl⟩
        unfold paintPageNumbersCalls
        by_cases hg : (s.m_usePageMode && !s.m_pageMetrics.pxPageMargins.isNull
            && s.m_showPageNumbers) = true
        · have hne : s.m_pageMetrics.pxPageSize.height ≠ 0 := by omega
          have h := paintPageNumbersLoop_eq s s.m_pageMetrics.pxPageSize
            s.m_pageMetrics.pxPageMargins
            (s.m_pageMetrics.pxPageMargins.left - s.horizontalScrollBar.value)
            (s.m_pageMetrics.pxPageSize.width - s.m_pageMetrics.pxPageMargins.left
              - s.m_pageMetrics.pxPageMargins.right) hph2 fuel
            (s.m_pageMetrics.pxPageSize.height
              - Int.tmod s.verticalScrollBar.value s.m_pageMetrics.pxPageSize.height)
            (qrealToInt ((s.verticalScrollBar.value : ℚ)
              / (s.m_pageMetrics.pxPageSize.height : ℚ) + 1))
            (by rw [hheight, hvalue]; omega)
          rw [if_pos hg]
          simp only [hne, if_false, h, Option.map_some']
          exact ⟨_, rfl⟩
        · rw [if_neg hg]
          exact ⟨_, rfl⟩
    · constructor
      · exact ⟨[], by simp [paintPagesView, hmode]⟩
      · exact ⟨[], by simp [paintPageNumbers, paintPageNumbersCalls, hmode]⟩
  · intro _
    have hb := breakCount_le_bound pageHeight s.height _ hph hcur
    exact ⟨hb, le_trans hmn hb⟩

/-- Witness for C15: pages of height 1000 in a widget of height 1500 scrolled to
the top: the loop of `paintPagesView` returns with fuel 2, having made one pass,
and does not return with fuel 1. -/
theorem C15_page_loops_terminate_witness :
    (1 : Int) ≤ 1000
      ∧ (∃ r, paintPagesViewLoop (pagedWidget ⟨794, 1000⟩ ⟨0, 0, 0, 0⟩ 3 1500 0) 1000 796 0 2
          (1000 - Int.tmod 0 1000) = some r ∧ r.1 = 2000)
      ∧ paintPagesViewLoop (pagedWidget ⟨794, 1000⟩ ⟨0, 0, 0, 0⟩ 3 1500 0) 1000 796 0 1
          (1000 - Int.tmod 0 1000) = none := by
  obtain ⟨n, m, h1, h2, -, -, -, -, h7⟩ :=
    C15_page_loops_terminate (pagedWidget ⟨794, 1000⟩ ⟨0, 0, 0, 0⟩ 3 1500 0) 1000 0 rfl rfl
      (by decide)
  have hn : n = 1 := by
    have hle : n ≤ 2 := (h7 (by decide)).1
    have hne0 : n ≠ 0 := by
      intro h0
      have := h1 796 0 1 (by omega)
      rw [h0] at this
      exact absurd this (by decide)
    have hne2 : n ≠ 2 := by
      intro h0
      have := h2 796 0 2 (by omega)
      exact absurd this (by decide)
    omega
  subst hn
  exact ⟨by decide, ⟨_, h1 796 0 2 (by decide), by decide⟩, h2 796 0 1 (le_refl 1)⟩

/-! ## The closing side borders -/

/-- C16 as stated fails for a negative scroll value.  The paint event of the
tall widget (one page of height 1000 in a viewport of height 1500) hands the
maximum -500 to the scroll bar, which lowers its value to -500.  After the
widget is made 300 high the resize event sets the maximum 700 and the value
stays -500.  The next paint runs no pass of the loop, since the first running
height 1500 is above 300, and draws the closing side borders from
`y0 = 1500 - 1000 = 500` to the height 300, so `y0` exceeds the height. -/
theorem C16_negative_scroll_closing_border :
    (∃ drawn, paintEvent 3 tallWidget = some (afterRangeChange tallWidget, drawn))
      ∧ (afterRangeChange tallWidget).verticalScrollBar.setMaximumCalls = [-500]
      ∧ (afterRangeChange tallWidget).verticalScrollBar.value = -500
      ∧ resizeEvent 3 shrunkWidget = some (afterRangeChange (updateViewportMargins shrunkWidget))
      ∧ (afterRangeChange (updateViewportMargins shrunkWidget)).m_usePageMode = true
      ∧ (afterRangeChange (updateViewportMargins shrunkWidget)).m_pageMetrics.pxPageSize.height
          = 1000
      ∧ (afterRangeChange (updateViewportMargins shrunkWidget)).height = 300
      ∧ (afterRangeChange (updateViewportMargins shrunkWidget)).verticalScrollBar.value = -500
      ∧ paintPagesViewLoop (afterRangeChange (updateViewportMargins shrunkWidget)) 1000 796 0 2
          (1000 - Int.tmod (-500) 1000) = some (1500, [])
      ∧ paintPagesView 2 (afterRangeChange (updateViewportMargins shrunkWidget))
          = some [DrawCmd.line Pen.borderPen 0 500 796 500,
              DrawCmd.line Pen.borderPen 0 500 0 300,
              DrawCmd.line Pen.borderPen 796 500 796 300]
      ∧ ¬ ((1500 : Int) - 1000
          ≤ (afterRangeChange (updateViewportMargins shrunkWidget)).height) := by
  refine ⟨?_, by decide, by decide, ?_, by decide, by decide, by decide, by decide, by decide,
    by decide, by decide⟩
  · obtain ⟨drawn, hd⟩ := paintEvent_returns 3 tallWidget (fun _ => by decide) (by decide)
      (by decide)
    rw [if_pos (by decide)] at hd
    exact ⟨drawn, hd⟩
  · rw [resizeEvent, updateVerticalScrollRange_eq 3 _ (by decide), if_pos (by decide)]

/-- C16 as amended: in page mode with page height at least 1 the loop of
`paintPagesView` only exits with a running height above the height of the
widget, so the guard after the loop is true and every paint ends with the two
closing side borders, from `y0 = final running height - pageHeight` down to the
height.  `y0` is at most the height whenever the loop made at least one pass,
and also whenever the scroll value and the height are at least 0. -/
theorem C16_closing_borders (fuel : Nat) (s : PagesTextEdit) (pageHeight v : Int)
    (hmode : s.m_usePageMode = true)
    (hheight : s.m_pageMetrics.pxPageSize.height = pageHeight)
    (hvalue : s.verticalScrollBar.value = v)
    (hph : 1 ≤ pageHeight)
    (hfuel : breakCount pageHeight s.height (pageHeight - Int.tmod v pageHeight) < fuel) :
    ∃ (x final : Int) (n : Nat) (before : List DrawCmd),
      x = s.m_pageMetrics.pxPageSize.width + (if Int.tmod s.width 2 = 0 then 2 else 1)
      ∧ final = pageHeight - Int.tmod v pageHeight + n * pageHeight
      ∧ (∃ lines, paintPagesViewLoop s pageHeight x s.horizontalScrollBar.value fuel
          (pageHeight - Int.tmod v pageHeight) = some (final, lines))
      ∧ s.height < final
      ∧ closingLines s pageHeight x s.horizontalScrollBar.value final
          = [DrawCmd.line Pen.borderPen (0 - s.horizontalScrollBar.value) (final - pageHeight)
              (0 - s.horizontalScrollBar.value) s.height,
             DrawCmd.line Pen.borderPen (x - s.horizontalScrollBar.value) (final - pageHeight)
              (x - s.horizontalScrollBar.value) s.height]
      ∧ paintPagesView fuel s
          = some (before
              ++ [DrawCmd.line Pen.borderPen (0 - s.horizontalScrollBar.value)
                    (final - pageHeight) (0 - s.horizontalScrollBar.value) s.height,
                  DrawCmd.line Pen.borderPen (x - s.horizontalScrollBar.value)
                    (final - pageHeight) (x - s.horizontalScrollBar.value) s.height])
      ∧ (1 ≤ n → final - pageHeight ≤ s.height)
      ∧ (0 ≤ v → 0 ≤ s.height → final - pageHeight ≤ s.height) := by
  have hph2 : 1 ≤ s.m_pageMetrics.pxPageSize.height := by rw [hheight]; exact hph
  have hloop := paintPagesViewLoop_eq s pageHeight
    (s.m_pageMetrics.pxPageSize.width + (if Int.tmod s.width 2 = 0 then 2 else 1))
    s.horizontalScrollBar.value hph fuel _ hfuel
  have hpaint := paintPagesView_eq fuel s hmode hph2 (by rw [hheight, hvalue]; exact hfuel)
  rw [hheight, hvalue] at hpaint
  have hexit : s.height < pageHeight - Int.tmod v pageHeight
      + (breakCount pageHeight s.height (pageHeight - Int.tmod v pageHeight) : Int)
        * pageHeight := by
    by_contra hle
    push_neg at hle
    exact lt_irrefl _ ((lt_breakCount_iff pageHeight s.height _ hph _).mpr hle)
  have hclose : closingLines s pageHeight
      (s.m_pageMetrics.pxPageSize.width + (if Int.tmod s.width 2 = 0 then 2 else 1))
      s.horizontalScrollBar.value
      (pageHeight - Int.tmod v pageHeight
        + (breakCount pageHeight s.height (pageHeight - Int.tmod v pageHeight) : Int)
          * pageHeight)
      = [DrawCmd.line Pen.borderPen (0 - s.horizontalScrollBar.value)
          (pageHeight - Int.tmod v pageHeight
            + (breakCount pageHeight s.height (pageHeight - Int.tmod v pageHeight) : Int)
              * pageHeight - pageHeight)
          (0 - s.horizontalScrollBar.value) s.height,
         DrawCmd.line Pen.borderPen
          (s.m_pageMetrics.pxPageSize.width + (if Int.tmod s.width 2 = 0 then 2 else 1)
            - s.horizontalScrollBar.value)
          (pageHeight - Int.tmod v pageHeight
            + (breakCount pageHeight s.height (pageHeight - Int.tmod v pageHeight) : Int)
              * pageHeight - pageHeight)
          (s.m_pageMetrics.pxPageSize.width + (if Int.tmod s.width 2 = 0 then 2 else 1)
            - s.horizontalScrollBar.value) s.height] := by
    rw [closingLines, if_pos (le_of_lt hexit)]
  have hone : 1 ≤ breakCount pageHeight s.height (pageHeight - Int.tmod v pageHeight) →
      pageHeight - Int.tmod v pageHeight
        + (breakCount pageHeight s.height (pageHeight - Int.tmod v pageHeight) : Int)
          * pageHeight - pageHeight ≤ s.height := by
    intro h1
    obtain ⟨j, hj⟩ : ∃ j, breakCount pageHeight s.height (pageHeight - Int.tmod v pageHeight)
        = j + 1 := ⟨_, (Nat.succ_pred_eq_of_pos h1).symm⟩
    have h2 := (lt_breakCount_iff pageHeight s.height (pageHeight - Int.tmod v pageHeight)
      hph j).mp (by omega)
    rw [hj]
    push_cast
    linarith
  refine ⟨_, _, _,
    topBorderLine pageHeight
        (s.m_pageMetrics.pxPageSize.width + (if Int.tmod s.width 2 = 0 then 2 else 1))
        (pageHeight - Int.tmod v pageHeight)
      ++ ((List.range (breakCount pageHeight s.height
            (pageHeight - Int.tmod v pageHeight))).flatMap fun (k : Nat) =>
          pageBreakLines s pageHeight
            (s.m_pageMetrics.pxPageSize.width + (if Int.tmod s.width 2 = 0 then 2 else 1))
            s.horizontalScrollBar.value (pageHeight - Int.tmod v pageHeight + k * pageHeight)),
    rfl, rfl, ⟨_, hloop⟩, hexit, hclose, ?_, hone, ?_⟩
  · rw [hpaint, hclose]
  · intro hv hh
    rcases Nat.eq_zero_or_pos
      (breakCount pageHeight s.height (pageHeight - Int.tmod v pageHeight)) with h0 | h0
    · rw [h0]
      have htmod : Int.tmod v pageHeight = v % pageHeight := Int.tmod_eq_emod hv (by omega)
      have hmod0 : 0 ≤ v % pageHeight := Int.emod_nonneg _ (by omega)
      rw [htmod]
      simp only [Nat.cast_zero, zero_mul, add_zero]
      omega
    · exact hone h0

/-- Witness for C16: pages of height 1000 in a widget of height 1500 scrolled to
the top: the loop exits at 2000 and the closing side borders go from 1000 to
1500. -/
theorem C16_closing_borders_witness :
    (pagedWidget ⟨794, 1000⟩ ⟨0, 0, 0, 0⟩ 3 1500 0).m_usePageMode = true
      ∧ (1 : Int) ≤ 1000
      ∧ breakCount 1000 (pagedWidget ⟨794, 1000⟩ ⟨0, 0, 0, 0⟩ 3 1500 0).height
          (1000 - Int.tmod 0 1000) < 2
      ∧ ∃ before, paintPagesView 2 (pagedWidget ⟨794, 1000⟩ ⟨0, 0, 0, 0⟩ 3 1500 0)
          = some (before ++ [DrawCmd.line Pen.borderPen 0 1000 0 1500,
              DrawCmd.line Pen.borderPen 796 1000 796 1500]) := by
  obtain ⟨x, final, n, before, hx, hfinal, ⟨lines, hloop⟩, -, -, hpaint, -, -⟩ :=
    C16_closing_borders 2 (pagedWidget ⟨794, 1000⟩ ⟨0, 0, 0, 0⟩ 3 1500 0) 1000 0 rfl rfl rfl
      (by decide) (by decide)
  have hx2 : x = 796 := by rw [hx]; decide
  have hf : final = 2000 := by
    have h2 : paintPagesViewLoop (pagedWidget ⟨794, 1000⟩ ⟨0, 0, 0, 0⟩ 3 1500 0) 1000 x
        (pagedWidget ⟨794, 1000⟩ ⟨0, 0, 0, 0⟩ 3 1500 0).horizontalScrollBar.value 2
        (1000 - Int.tmod 0 1000) = some (2000, pageBreakLines
          (pagedWidget ⟨794, 1000⟩ ⟨0, 0, 0, 0⟩ 3 1500 0) 1000 x 0 1000) := by
      rw [hx2]; decide
    rw [h2] at hloop
    cases hloop
    rfl
  subst hx2 hf
  refine ⟨rfl, by decide, by decide, before, ?_⟩
  rw [hpaint]
  rfl

/-! ## The initial top border -/

/-- C17: in page mode with page height at least 1 and scroll value `v` at least
0, what `paintPagesView` draws starts with the initial top border exactly when
`v` is a multiple of the page height, and the border then is the line at screen
height 0 from 0 to the right border; for every other `v` the drawing starts with
the first page break or the closing borders. -/
theorem C17_initial_top_border (fuel : Nat) (s : PagesTextEdit) (pageHeight v : Int)
    (hmode : s.m_usePageMode = true)
    (hheight : s.m_pageMetrics.pxPageSize.height = pageHeight)
    (hvalue : s.verticalScrollBar.value = v)
    (hph : 1 ≤ pageHeight) (hv : 0 ≤ v)
    (hfuel : breakCount pageHeight s.height (pageHeight - v % pageHeight) < fuel) :
    ∃ (x : Int) (n : Nat),
      x = s.m_pageMetrics.pxPageSize.width + (if Int.tmod s.width 2 = 0 then 2 else 1)
      ∧ n = breakCount pageHeight s.height (pageHeight - v % pageHeight)
      ∧ paintPagesView fuel s
          = some (topBorderLine pageHeight x (pageHeight - Int.tmod v pageHeight)
              ++ ((List.range n).flatMap fun (k : Nat) =>
                  pageBreakLines s pageHeight x s.horizontalScrollBar.value
                    (pageHeight - v % pageHeight + k * pageHeight))
              ++ closingLines s pageHeight x s.horizontalScrollBar.value
                  (pageHeight - v % pageHeight + n * pageHeight))
      ∧ (pageHeight - Int.tmod v pageHeight - pageHeight ≥ 0 ↔ pageHeight ∣ v)
      ∧ topBorderLine pageHeight x (pageHeight - Int.tmod v pageHeight)
          = (if pageHeight ∣ v then [DrawCmd.line Pen.borderPen 0 0 x 0] else []) := by
  have htmod : Int.tmod v pageHeight = v % pageHeight := Int.tmod_eq_emod hv (by omega)
  have hmod0 : 0 ≤ v % pageHeight := Int.emod_nonneg _ (by omega)
  have hiff : pageHeight - v % pageHeight - pageHeight ≥ 0 ↔ pageHeight ∣ v := by
    rw [Int.dvd_iff_emod_eq_zero]
    constructor <;> intro h <;> omega
  have hpaint := paintPagesView_eq fuel s hmode (by rw [hheight]; exact hph)
    (by rw [hheight, hvalue, htmod]; exact hfuel)
  rw [hheight, hvalue, htmod] at hpaint
  refine ⟨_, _, rfl, rfl, by rw [htmod]; exact hpaint, by rw [htmod]; exact hiff, ?_⟩
  rw [htmod]
  unfold topBorderLine
  by_cases hd : pageHeight ∣ v
  · have h0 : v % pageHeight = 0 := Int.dvd_iff_emod_eq_zero.mp hd
    simp [hd, h0]
  · have hn : ¬ (pageHeight - v % pageHeight - pageHeight ≥ 0) := fun h => hd (hiff.mp h)
    simp only [hd, hn, if_false]

/-- Witness for C17: pages of height 1000 in a widget of height 1500; scrolled
to the top the drawing starts with the top border at 0. -/
theorem C17_initial_top_border_witness :
    (pagedWidget ⟨794, 1000⟩ ⟨0, 0, 0, 0⟩ 3 1500 0).m_usePageMode = true
      ∧ (1 : Int) ≤ 1000 ∧ (0 : Int) ≤ 0
      ∧ breakCount 1000 (pagedWidget ⟨794, 1000⟩ ⟨0, 0, 0, 0⟩ 3 1500 0).height
          (1000 - 0 % 1000) < 2
      ∧ topBorderLine 1000 796 (1000 - Int.tmod 0 1000)
          = [DrawCmd.line Pen.borderPen 0 0 796 0] := by
  obtain ⟨x, n, hx, -, -, -, h⟩ :=
    C17_initial_top_border 2 (pagedWidget ⟨794, 1000⟩ ⟨0, 0, 0, 0⟩ 3 1500 0) 1000 0 rfl rfl rfl
      (by decide) (by decide) (by decide)
  have hx2 : x = 796 := by rw [hx]; decide
  rw [hx2] at h
  exact ⟨rfl, by decide, by decide, by decide, by rw [h]; decide⟩

/-! ## Format and margins -/

/-- C18: `setPageMargins` keeps the page format and stores the margins it is
given; `setPageFormat` stores the format and, since it leaves the margin argument
of `PageMetrics::update` to its default, resets the millimetre margins (and with
them the pixel margins) to zero whatever they were; so `setPageMargins` followed
by `setPageFormat` leaves the margins zero, while the other order leaves the
margins given. -/
theorem C18_format_resets_margins (dev : Device) (s : PagesTextEdit) (f : PageSizeId)
    (m : QMarginsMm) :
    (setPageMargins dev s m).m_pageMetrics.m_pageFormat = s.m_pageMetrics.m_pageFormat
      ∧ (setPageMargins dev s m).m_pageMetrics.m_mmPageMargins = m
      ∧ (setPageFormat dev s f).m_pageMetrics.m_pageFormat = f
      ∧ (setPageFormat dev s f).m_pageMetrics.m_mmPageMargins = ⟨0, 0, 0, 0⟩
      ∧ (setPageFormat dev s f).m_pageMetrics.pxPageMargins = ⟨0, 0, 0, 0⟩
      ∧ (setPageFormat dev (setPageMargins dev s m) f).m_pageMetrics.m_mmPageMargins
          = ⟨0, 0, 0, 0⟩
      ∧ (setPageMargins dev (setPageFormat dev s f) m).m_pageMetrics.m_mmPageMargins = m
      ∧ (setPageMargins dev (setPageFormat dev s f) m).m_pageMetrics.m_pageFormat = f
      ∧ (m ≠ ⟨0, 0, 0, 0⟩ →
          (setPageFormat dev (setPageMargins dev s m) f).m_pageMetrics.m_mmPageMargins ≠ m) := by
  refine ⟨rfl, rfl, rfl, rfl, ?_, rfl, rfl, rfl, ?_⟩
  · simp only [setPageFormat, repaint, PageMetrics.update, PageMetrics.pxPageMargins, mmToPx_zero]
  · intro hm h
    exact hm h.symm

/-- Witness for C18: margins of 20 mm set on the sample widget are gone after
the format is set to A4 again. -/
theorem C18_format_resets_margins_witness :
    (setPageMargins screen96 sampleWidget ⟨20, 20, 20, 20⟩).m_pageMetrics.m_mmPageMargins
        = ⟨20, 20, 20, 20⟩
      ∧ (setPageFormat screen96 (setPageMargins screen96 sampleWidget ⟨20, 20, 20, 20⟩)
          0).m_pageMetrics.m_mmPageMargins = ⟨0, 0, 0, 0⟩
      ∧ (setPageFormat screen96 (setPageMargins screen96 sampleWidget ⟨20, 20, 20, 20⟩)
          0).m_pageMetrics.m_mmPageMargins ≠ ⟨20, 20, 20, 20⟩ :=
  ⟨(C18_format_resets_margins screen96 sampleWidget 0 ⟨20, 20, 20, 20⟩).2.1,
    (C18_format_resets_margins screen96 sampleWidget 0 ⟨20, 20, 20, 20⟩).2.2.2.2.2.1,
    (C18_format_resets_margins screen96 sampleWidget 0 ⟨20, 20, 20, 20⟩).2.2.2.2.2.2.2.2
      (by simp)⟩

end PagesTextEdit
